import Mathlib

/-!
# Background-task wrapping protocol of the New Relic Python agent (C binding layer)

A shallow embedding of `wrapper/py_background_task.c` and `wrapper/py_settings.c`.

* Python objects are values of `PyObject`; the constructor records what the C code can
  observe about an object (its exact type, the `PyString_Check` family of tests, its
  integer or string payload) and an identity.
* A C function that can touch the interpreter is a state transformer `C α` over `Interp`
  (error indicator, the log of calls that left the function, the wrapper and decorator
  objects, the process-wide globals). Dereferencing a NULL pointer ends a run as
  `Run.undefined`.
* Code that lives outside the two source files (the CPython runtime, `py_utilities.c`,
  `py_transaction.c`, `py_application.c`) is a field of `Env`, a function of the arguments
  it is called with; the theorems quantify over all environments. Memory allocation is
  taken to succeed.
* Reference counts are not modelled; `Py_INCREF`/`Py_DECREF` only keep their NULL
  dereference.
-/

namespace NewRelic

/-! ## Data model -/

/-- Python objects, as far as the wrapper code can tell them apart. -/
inductive PyObject where
  /-- The object `None`. -/
  | Py_None
  /-- The object `True`. -/
  | Py_True
  /-- The object `False`. -/
  | Py_False
  /-- An object for which `PyString_Check` holds. -/
  | PyString (s : String)
  /-- An object for which `PyUnicode_Check` holds. -/
  | PyUnicode (s : String)
  /-- A plain integer object holding a C `long`. -/
  | PyInt (v : Int)
  /-- A traceback object (`PyTraceBack_Check` holds). -/
  | PyTraceBack (id : Nat)
  /-- The exception class `TypeError`. -/
  | PyExc_TypeError
  /-- The exception class `ValueError`. -/
  | PyExc_ValueError
  /-- An object whose type is exactly `NRApplication_Type`. -/
  | NRApplication (id : Nat)
  /-- An object whose type is exactly `NRWebTransaction_Type`. -/
  | NRWebTransaction (id : Nat)
  /-- An object whose type is exactly `NRBackgroundTask_Type`. -/
  | NRBackgroundTask (id : Nat)
  /-- The type object `NRBackgroundTask_Type` itself. -/
  | NRBackgroundTask_Type
  /-- The wrapper object stored at `addr` in `Interp.wrappers`. -/
  | NRBackgroundTaskWrapper (addr : Nat)
  /-- The decorator object stored at `addr` in `Interp.decorators`. -/
  | NRBackgroundTaskDecorator (addr : Nat)
  /-- Any other object (functions, bound methods, exception instances, ...). -/
  | Object (id : Nat)
  deriving DecidableEq, Repr

/-- Keyword arguments: a dictionary with string keys. -/
abbrev PyDict := List (String × PyObject)

/-- Contents of the per-thread error indicator: `(type, value, traceback)`, the last two
may be NULL. -/
structure PyErr where
  type : PyObject
  value : Option PyObject
  traceback : Option PyObject
  deriving DecidableEq, Repr

/-- Outcome of a call into code outside the modelled files: an object, or NULL with the
given error set. -/
inductive PyResult (α : Type) where
  | ok (v : α)
  | error (e : PyErr)
  deriving DecidableEq, Repr

/-- Calls that leave the modelled functions, in the order they are made. -/
inductive Event where
  | CallableName (wrapped : Option PyObject) (self : PyObject) (args : List PyObject)
  | CurrentTransaction
  | SetAttr (o : PyObject) (attr : String) (v : PyObject)
  | GetAttr (o : PyObject) (attr : String)
  | Call (callee : PyObject) (args : List PyObject) (kwds : Option PyDict)
  | WriteUnraisable (o : Option PyObject) (e : Option PyErr)
  | ApplicationSingleton (args : List PyObject)
  | UpdateWrapper (wrapper wrapped : PyObject)
  deriving DecidableEq, Repr

/-- The C struct `NRBackgroundTaskWrapperObject`; every member is a nullable pointer. -/
structure NRBackgroundTaskWrapperObject where
  dict : Option PyObject
  wrapped_object : Option PyObject
  application : Option PyObject
  name : Option PyObject
  scope : Option PyObject
  deriving DecidableEq, Repr

/-- The C struct `NRBackgroundTaskDecoratorObject`. -/
structure NRBackgroundTaskDecoratorObject where
  application : Option PyObject
  name : Option PyObject
  scope : Option PyObject
  deriving DecidableEq, Repr

/-- The members of `nr_per_process_globals` used by the two files. -/
structure nr_per_process_globals_t where
  appname : Option String
  logfilename : Option String
  loglevel : Int
  deriving DecidableEq, Repr

/-- Interpreter and process state visible to the modelled functions. -/
structure Interp where
  /-- The error indicator (`None` when no exception is pending). -/
  curexc : Option PyErr
  /-- Log of outgoing calls, oldest first. -/
  trace : List Event
  /-- Allocated wrapper objects, addressed by position. -/
  wrappers : List NRBackgroundTaskWrapperObject
  /-- Allocated decorator objects, addressed by position. -/
  decorators : List NRBackgroundTaskDecoratorObject
  /-- The process-wide settings store. -/
  nr_per_process_globals : nr_per_process_globals_t
  deriving DecidableEq, Repr

/-- Code the two source files call but do not define. -/
structure Env where
  /-- Modelled from the spec: `NRUtilities_CallableName(wrapped, wrapper, args, ":")` of
  `py_utilities.c`, which is missing; the spec (4.1) has name resolution always yield a
  name, so the result is never NULL. -/
  NRUtilities_CallableName : Option PyObject → PyObject → List PyObject → String → PyObject
  /-- Model of `NRTransaction_CurrentTransaction()`: the active transaction or NULL. -/
  NRTransaction_CurrentTransaction : Option PyObject
  /-- Model of `PyObject_SetAttrString(o, attr, v)`. -/
  PyObject_SetAttrString : PyObject → String → PyObject → PyResult Unit
  /-- Model of `PyObject_GetAttrString(o, attr)`. -/
  PyObject_GetAttrString : PyObject → String → PyResult PyObject
  /-- Calling a Python object with positional and keyword arguments. -/
  PyObject_Call : PyObject → List PyObject → Option PyDict → PyResult PyObject
  /-- Model of `PyErr_NormalizeException` on a non-NULL `(type, value, traceback)`. -/
  PyErr_NormalizeException : PyObject × PyObject × PyObject → PyObject × PyObject × PyObject
  /-- Model of `NRApplication_Singleton(args, NULL)` from `py_application.c`. -/
  NRApplication_Singleton : List PyObject → PyResult PyObject
  /-- Model of `NRUtilities_UpdateWrapper(wrapper, wrapped)` from `py_utilities.c`. -/
  NRUtilities_UpdateWrapper : PyObject → PyObject → PyResult PyObject

/-- Result of running a C function: it returned `a` in state `st`, or it dereferenced a
NULL pointer in state `st` (behaviour undefined from there on). -/
inductive Run (α : Type) where
  | ret (a : α) (st : Interp)
  | undefined (st : Interp)
  deriving DecidableEq, Repr

/-- A C function body over the interpreter state. -/
abbrev C (α : Type) := Interp → Run α

/-- Return a value without touching the state. -/
def C.pure {α : Type} (a : α) : C α := fun st => .ret a st

/-- Sequencing; undefined behaviour stops the run. -/
def C.bind {α β : Type} (m : C α) (f : α → C β) : C β := fun st =>
  match m st with
  | .ret a st1 => f a st1
  | .undefined st1 => .undefined st1

instance : Monad C where
  pure := C.pure
  bind := C.bind

/-- Undefined behaviour (NULL pointer dereference). -/
def undefined_behaviour {α : Type} : C α := fun st => .undefined st

/-- The state with one more event in the log. -/
def Interp.log (st : Interp) (e : Event) : Interp := { st with trace := st.trace ++ [e] }

/-- The state with the error indicator replaced. -/
def Interp.with_curexc (st : Interp) (e : Option PyErr) : Interp := { st with curexc := e }

/-- The state with the wrapper objects replaced. -/
def Interp.with_wrappers (st : Interp) (ws : List NRBackgroundTaskWrapperObject) : Interp :=
  { st with wrappers := ws }

/-- The state with the decorator objects replaced. -/
def Interp.with_decorators (st : Interp) (ds : List NRBackgroundTaskDecoratorObject) :
    Interp :=
  { st with decorators := ds }

/-- The state with the process-wide globals replaced. -/
def Interp.with_globals (st : Interp) (g : nr_per_process_globals_t) : Interp :=
  { st with nr_per_process_globals := g }

/-- Append an event to the log. -/
def emit (e : Event) : C Unit := fun st => .ret () (st.log e)

/-- Read the process-wide globals. -/
def get_globals : C nr_per_process_globals_t := fun st => .ret st.nr_per_process_globals st

/-- Overwrite the process-wide globals. -/
def set_globals (g : nr_per_process_globals_t) : C Unit := fun st =>
  .ret () (st.with_globals g)

/-- Read the error indicator. -/
def PyErr_Occurred : C (Option PyErr) := fun st => .ret st.curexc st

/-- Overwrite the error indicator. -/
def set_curexc (e : Option PyErr) : C Unit := fun st => .ret () (st.with_curexc e)

/-- Model of `Py_INCREF(o)` / `Py_DECREF(o)`: dereferences `o`. -/
def Py_REF (o : Option PyObject) : C PyObject :=
  match o with
  | some v => pure v
  | none => undefined_behaviour

/-! ## CPython runtime -/

/-- Model of `PyString_Check`. -/
def PyString_Check : PyObject → Bool
  | .PyString _ => true
  | _ => false

/-- Model of `PyUnicode_Check`. -/
def PyUnicode_Check : PyObject → Bool
  | .PyUnicode _ => true
  | _ => false

/-- Model of `PyTraceBack_Check`. -/
def PyTraceBack_Check : PyObject → Bool
  | .PyTraceBack _ => true
  | _ => false

/-- Model of `PyInt_Check`: plain integers and, as `bool` derives from `int`, the two booleans. -/
def PyInt_Check : PyObject → Bool
  | .PyInt _ => true
  | .Py_True => true
  | .Py_False => true
  | _ => false

/-- Model of `PyInt_AsLong` on an object that passes `PyInt_Check`. -/
def PyInt_AsLong : PyObject → Int
  | .PyInt v => v
  | .Py_True => 1
  | _ => 0

/-- Conversion of a C `long` to `int` on an LP64 platform (64-bit `long`, 32-bit `int`):
the value is reduced modulo `2^32` into `[-2^31, 2^31)`. -/
def long_to_int (v : Int) : Int := (v + 2 ^ 31) % 2 ^ 32 - 2 ^ 31

/-- Model of `Py_TYPE(o) == &NRApplication_Type`. -/
def is_NRApplication : PyObject → Bool
  | .NRApplication _ => true
  | _ => false

/-- Model of `PyErr_SetString(type, msg)` and `PyErr_Format(type, fmt, ...)`; the message is kept as
written in the source, without substituting the type name. -/
def PyErr_SetString (type : PyObject) (msg : String) : C Unit :=
  set_curexc (some { type := type, value := some (.PyString msg), traceback := none })

/-- Model of `PyErr_Clear()`. -/
def PyErr_Clear : C Unit := set_curexc none

/-- Model of `PyErr_Fetch(&type, &value, &traceback)`: hands out the indicator and clears it. -/
def PyErr_Fetch : C (Option PyErr) := do
  let e ← PyErr_Occurred
  set_curexc none
  pure e

/-- Model of `PyErr_Restore(type, value, traceback)`: a traceback that is not a traceback object
(such as `None`) is dropped. -/
def PyErr_Restore (type value traceback : PyObject) : C Unit :=
  set_curexc (some { type := type, value := some value,
                     traceback := if PyTraceBack_Check traceback then some traceback else none })

/-- Model of `PyErr_WriteUnraisable(o)`: reports the pending exception on stderr and clears it. -/
def PyErr_WriteUnraisable (o : Option PyObject) : C Unit := do
  let e ← PyErr_Fetch
  emit (.WriteUnraisable o e)

/-- Turn the outcome of outside code into a nullable pointer, setting the error
indicator on failure. -/
def from_result {α : Type} (r : PyResult α) : C (Option α) :=
  match r with
  | .ok v => pure (some v)
  | .error e => do
      set_curexc (some e)
      pure none

/-- Model of `PyObject_Call(func, args, kwds)`; `func` is dereferenced. -/
def PyObject_Call (env : Env) (func : Option PyObject) (args : List PyObject)
    (kwds : Option PyDict) : C (Option PyObject) := do
  let f ← Py_REF func
  emit (.Call f args kwds)
  from_result (env.PyObject_Call f args kwds)

/-- Model of `PyObject_CallFunctionObjArgs(callable, a1, ..., NULL)`: the argument list ends at the
first NULL. -/
def PyObject_CallFunctionObjArgs (env : Env) (callable : PyObject)
    (args : List (Option PyObject)) : C (Option PyObject) :=
  PyObject_Call env (some callable) ((args.takeWhile Option.isSome).filterMap id) none

/-- Model of `PyObject_GetAttrString(o, attr)`; `o` is dereferenced. -/
def PyObject_GetAttrString (env : Env) (o : Option PyObject) (attr : String) :
    C (Option PyObject) := do
  let v ← Py_REF o
  emit (.GetAttr v attr)
  from_result (env.PyObject_GetAttrString v attr)

/-- Model of `PyObject_SetAttrString(o, attr, v)`: `0` on success, `-1` with an error set. -/
def PyObject_SetAttrString (env : Env) (o : PyObject) (attr : String) (v : PyObject) :
    C Int := do
  emit (.SetAttr o attr v)
  let r ← from_result (env.PyObject_SetAttrString o attr v)
  pure (if r.isSome then 0 else -1)

/-- Model of `PyString_FromString(s)`: `s` is dereferenced. -/
def PyString_FromString (s : Option String) : C PyObject :=
  match s with
  | some v => pure (.PyString v)
  | none => undefined_behaviour

/-- The slot loop of `PyArg_ParseTupleAndKeywords` for a format of `O` units: `i` is the
index of the slot for `keyword`, `nkeywords` counts the keyword arguments not yet consumed.
The result holds one entry per slot (`none`: the C variable is left untouched) and the
remaining keyword count; `none` is a failed parse. -/
def parse_slots (min : Nat) (args : List PyObject) (kw : PyDict) :
    Nat → List String → Nat → Option (List (Option PyObject) × Nat)
  | _, [], nkeywords => some ([], nkeywords)
  | i, keyword :: rest, nkeywords =>
    match (if nkeywords = 0 then none else kw.lookup keyword) with
    | some v =>
      /- argument given by name and by position -/
      if i < args.length then none
      else (parse_slots min args kw (i + 1) rest (nkeywords - 1)).map
        fun r => (some v :: r.1, r.2)
    | none =>
      if i < args.length then
        (parse_slots min args kw (i + 1) rest nkeywords).map
          fun r => (args[i]? :: r.1, r.2)
      else if i < min then none
      else if nkeywords = 0 then some (List.replicate (rest.length + 1) none, 0)
      else (parse_slots min args kw (i + 1) rest nkeywords).map fun r => (none :: r.1, r.2)

/-- The binding of arguments that `PyArg_ParseTupleAndKeywords` computes for a format made
of `O` units of which the first `min` are required: one entry per name in `kwlist`, or
`none` when the arguments do not fit. -/
def parse_args (min : Nat) (kwlist : List String) (args : List PyObject)
    (kwds : Option PyDict) : Option (List (Option PyObject)) :=
  let kw := kwds.getD []
  /- more arguments than slots -/
  if args.length + kw.length > kwlist.length then none
  else
    match parse_slots min args kw 0 kwlist kw.length with
    | none => none
    | some (slots, nkeywords) =>
      /- make sure there are no extraneous keyword arguments -/
      if nkeywords > 0 ∧ ¬ kw.all (fun k => kwlist.contains k.1) then none
      else some slots

/-- Model of `PyArg_ParseTupleAndKeywords(args, kwds, format, kwlist, ...)`: every failure raises
`TypeError`; the message, which depends on the reason, is not modelled. -/
def PyArg_ParseTupleAndKeywords (min : Nat) (kwlist : List String) (args : List PyObject)
    (kwds : Option PyDict) : C (Option (List (Option PyObject))) :=
  match parse_args min kwlist args kwds with
  | none => do
    set_curexc (some { type := .PyExc_TypeError, value := none, traceback := none })
    pure none
  | some slots => pure (some slots)

/-- The C variable for slot `i` after a successful parse: its initial value `Py_None`
unless the parser stored an argument. -/
def slot (slots : List (Option PyObject)) (i : Nat) : PyObject :=
  (slots.getD i none).getD .Py_None

/-- Model of `PyErr_NormalizeException(&type, &value, &traceback)` on non-NULL pointers. -/
def PyErr_NormalizeException (env : Env) (type value traceback : PyObject) :
    C (PyObject × PyObject × PyObject) :=
  pure (env.PyErr_NormalizeException (type, value, traceback))

/-! ## py_utilities.c, py_transaction.c -/

/-- Model of `NRUtilities_CallableName(wrapped, wrapper, args, sep)`. -/
def NRUtilities_CallableName (env : Env) (wrapped : Option PyObject) (self : PyObject)
    (args : List PyObject) (sep : String) : C PyObject := do
  emit (.CallableName wrapped self args)
  pure (env.NRUtilities_CallableName wrapped self args sep)

/-- Model of `NRApplication_Singleton(args, NULL)`. -/
def NRApplication_Singleton (env : Env) (args : List PyObject) : C (Option PyObject) := do
  emit (.ApplicationSingleton args)
  from_result (env.NRApplication_Singleton args)

/-- Model of `NRUtilities_UpdateWrapper(wrapper, wrapped)`. -/
def NRUtilities_UpdateWrapper (env : Env) (wrapper wrapped : PyObject) :
    C (Option PyObject) := do
  emit (.UpdateWrapper wrapper wrapped)
  from_result (env.NRUtilities_UpdateWrapper wrapper wrapped)

/-- Model of `NRTransaction_CurrentTransaction()`. -/
def NRTransaction_CurrentTransaction (env : Env) : C (Option PyObject) := do
  emit .CurrentTransaction
  pure env.NRTransaction_CurrentTransaction

/-! ## py_background_task.c : BackgroundTask -/

/-- The members of the agent's transaction record that `NRBackgroundTask_init` writes; the
struct itself is declared in the agent core, outside the sources. -/
structure nr_transaction_t where
  path_type : Int
  path : Option String
  realpath : Option String
  backgroundjob : Int
  deriving DecidableEq, Repr

/-- The members of the C struct `NRTransactionObject` used by `NRBackgroundTask_init`: the
application, NULL until the object is initialised, and the transaction record, which may be
NULL. -/
structure NRTransactionObject where
  application : Option PyObject
  transaction : Option nr_transaction_t
  deriving DecidableEq, Repr

/-- What `NRBackgroundTask_init` takes from outside the sources. -/
structure TransactionEnv where
  /-- The base initializer `NRTransaction_Type.tp_init(self, args, kwds)` of
  `py_transaction.c`: the object as it leaves it, and success or the error raised. -/
  NRTransaction_init :
    NRTransactionObject → List PyObject → Option PyDict → NRTransactionObject × PyResult Unit
  /-- Modelled from the spec: `NRUtilities_ConstructPath(name, scope)` of `py_utilities.c`,
  which is missing; the spec treats path construction as a service that yields the path, so
  the result is the text of a bytes object, never NULL. -/
  NRUtilities_ConstructPath : PyObject → PyObject → String
  /-- The constant `NR_PATH_TYPE_CUSTOM` of the agent core headers. -/
  NR_PATH_TYPE_CUSTOM : Int

/-- Lines 81-92 of `NRBackgroundTask_init`: the background-task attributes are written to
the transaction record when there is one. -/
def NRBackgroundTask_init_record (tenv : TransactionEnv) (self : NRTransactionObject)
    (name scope : PyObject) : NRTransactionObject :=
  match self.transaction with
  | some t =>
    { self with
      transaction := some
        { t with
          path_type := tenv.NR_PATH_TYPE_CUSTOM
          path := some (tenv.NRUtilities_ConstructPath name scope)
          realpath := none
          backgroundjob := 1 } }
  | none => self

/-- Model of `NRBackgroundTask_init(self, args, kwds)`. The object is passed in and handed
back with the result. The format is `"O!O|O"`: the first unit also requires an application
object. -/
def NRBackgroundTask_init (tenv : TransactionEnv) (self : NRTransactionObject)
    (args : List PyObject) (kwds : Option PyDict) : C (Int × NRTransactionObject) := do
  let parsed ← PyArg_ParseTupleAndKeywords 2 ["application", "name", "scope"] args kwds
  match parsed with
  | none => pure (-1, self)
  | some slots =>
    match slots.getD 0 none, slots.getD 1 none with
    | some application, some name =>
      let scope : PyObject := slot slots 2
      if is_NRApplication application = false then do
        /- the `O!` unit rejects the argument -/
        set_curexc (some { type := .PyExc_TypeError, value := none, traceback := none })
        pure (-1, self)
      else if PyString_Check name = false ∧ PyUnicode_Check name = false then do
        PyErr_SetString .PyExc_TypeError
          "expected string or Unicode for name, found type '%s'"
        pure (-1, self)
      else if PyString_Check scope = false ∧ PyUnicode_Check scope = false ∧
          scope ≠ .Py_None then do
        PyErr_SetString .PyExc_TypeError
          "expected string, Unicode or None for scope, found type '%s'"
        pure (-1, self)
      /- Validate that this method hasn't been called previously. -/
      else if self.application.isSome = true then do
        PyErr_SetString .PyExc_TypeError "transaction already initialized"
        pure (-1, self)
      else do
        /- Pass application object to the base class constructor:
        `PyTuple_Pack(1, PyTuple_GetItem(args, 0))` dereferences the item. -/
        let item ← Py_REF args[0]?
        let newargs : List PyObject := [item]
        match tenv.NRTransaction_init self newargs kwds with
        | (self1, .error e) => do
          set_curexc (some e)
          pure (-1, self1)
        | (self1, .ok _) =>
          /- Setup the background task specific attributes of the transaction. -/
          pure (0, NRBackgroundTask_init_record tenv self1 name scope)
    /- a required argument is never left unset by a successful parse -/
    | _, _ => undefined_behaviour

/-! ## py_background_task.c : BackgroundTaskWrapper -/

/-- Load the struct behind a wrapper pointer. -/
def load_wrapper (self : Nat) : C NRBackgroundTaskWrapperObject := fun st =>
  match st.wrappers[self]? with
  | some w => .ret w st
  | none => .undefined st

/-- Update the struct behind a wrapper pointer. -/
def store_wrapper (self : Nat)
    (f : NRBackgroundTaskWrapperObject → NRBackgroundTaskWrapperObject) : C Unit := fun st =>
  match st.wrappers[self]? with
  | some w => .ret () (st.with_wrappers (st.wrappers.set self (f w)))
  | none => .undefined st

/-- Model of `NRBackgroundTaskWrapper_new`: a fresh object with every member NULL; the result is
its address. -/
def NRBackgroundTaskWrapper_new : C Nat := fun st =>
  .ret st.wrappers.length
    (st.with_wrappers (st.wrappers ++ [⟨none, none, none, none, none⟩]))

/-- Lines 210-226 of `NRBackgroundTaskWrapper_init`: an `application` that is not an
application object is looked up through `NRApplication_Singleton`, `None` standing for
the process-wide application name. The result may be NULL. -/
def NRBackgroundTaskWrapper_init_application (env : Env) (application : PyObject) :
    C (Option PyObject) :=
  if is_NRApplication application = false then
    if application = .Py_None then do
      let globals ← get_globals
      let appname ← PyString_FromString globals.appname
      NRApplication_Singleton env [appname]
    else
      NRApplication_Singleton env [application]
  else
    pure (some application)

/-- Model of `NRBackgroundTaskWrapper_init(self, args, kwds)`. -/
def NRBackgroundTaskWrapper_init (env : Env) (self : Nat) (args : List PyObject)
    (kwds : Option PyDict) : C Int := do
  let parsed ← PyArg_ParseTupleAndKeywords 1 ["wrapped", "application", "name", "scope"]
    args kwds
  match parsed with
  | none => pure (-1)
  | some slots =>
    let wrapped_object : Option PyObject := slots.getD 0 none
    let application : PyObject := slot slots 1
    let name : PyObject := slot slots 2
    let scope : PyObject := slot slots 3
    if PyString_Check name = false ∧ PyUnicode_Check name = false ∧ name ≠ .Py_None then do
      PyErr_SetString .PyExc_TypeError
        "name argument must be str, unicode, or None, found type '%s'"
      pure (-1)
    else if PyString_Check scope = false ∧ PyUnicode_Check scope = false ∧
        scope ≠ .Py_None then do
      PyErr_SetString .PyExc_TypeError
        "expected string, Unicode or None for scope, found type '%s'"
      pure (-1)
    else if application ≠ .Py_None ∧ is_NRApplication application = false ∧
        PyString_Check application = false ∧ PyUnicode_Check application = false then do
      PyErr_SetString .PyExc_TypeError
        "application argument must be None, str, unicode, or application object, found type '%s'"
      pure (-1)
    else do
      let application ← NRBackgroundTaskWrapper_init_application env application
      let wrapped ← Py_REF wrapped_object
      store_wrapper self fun w => { w with wrapped_object := some wrapped }
      let application ← Py_REF application
      store_wrapper self fun w => { w with application := some application }
      store_wrapper self fun w => { w with name := some name }
      store_wrapper self fun w => { w with scope := some scope }
      /- Perform equivalent of functools.wraps(). -/
      let wrapper ← NRUtilities_UpdateWrapper env (.NRBackgroundTaskWrapper self) wrapped
      match wrapper with
      | none => pure (-1)
      | some _ => pure 0

/-- Calling the type object `NRBackgroundTaskWrapper_Type`: `tp_new`, then `tp_init`; the
new object is dropped when `tp_init` fails (its struct stays in the store, out of
reach). -/
def NRBackgroundTaskWrapper_Type_call (env : Env) (args : List PyObject)
    (kwds : Option PyDict) : C (Option PyObject) := do
  let obj ← NRBackgroundTaskWrapper_new
  let r ← NRBackgroundTaskWrapper_init env obj args kwds
  if r < 0 then pure none else pure (some (.NRBackgroundTaskWrapper obj))

/-- The idiom `if (!method_result) PyErr_WriteUnraisable(instance_method); else
Py_DECREF(method_result);` that follows every tracking call. -/
def unraisable_unless (method_result : Option PyObject) (instance_method : Option PyObject) :
    C Unit :=
  match method_result with
  | none => PyErr_WriteUnraisable instance_method
  | some _ => pure ()

/-- Lines 341-426 of `NRBackgroundTaskWrapper_call`: the part after the web-transaction
test, entered with `name` computed (owned-transaction path). -/
def NRBackgroundTaskWrapper_call_owned (env : Env) (self : NRBackgroundTaskWrapperObject)
    (name : PyObject) (args : List PyObject) (kwds : Option PyDict) :
    C (Option PyObject) := do
  /- Create background task context manager. -/
  let background_task ← PyObject_CallFunctionObjArgs env .NRBackgroundTask_Type
    [self.application, some name, self.scope]
  /- Now call __enter__() on the context manager. -/
  let instance_method ← PyObject_GetAttrString env background_task "__enter__"
  let method_args : List PyObject := []
  let method_result ← PyObject_Call env instance_method method_args none
  unraisable_unless method_result instance_method
  /- Now call the actual wrapped function with the original position and keyword
  arguments. -/
  let wrapped_result ← PyObject_Call env self.wrapped_object args kwds
  /- Now call __exit__() on the context manager. If the call of the wrapped function is
  successful then pass all None objects, else pass exception details. -/
  let instance_method ← PyObject_GetAttrString env background_task "__exit__"
  match wrapped_result with
  | some _ =>
    let method_args : List PyObject := [.Py_None, .Py_None, .Py_None]
    let method_result ← PyObject_Call env instance_method method_args none
    unraisable_unless method_result instance_method
    pure wrapped_result
  | none =>
    let fetched ← PyErr_Fetch
    let value := (fetched.bind PyErr.value).getD .Py_None
    let traceback := (fetched.bind PyErr.traceback).getD .Py_None
    /- `PyTuple_Pack(3, type, value, traceback)` dereferences `type`. -/
    let type ← Py_REF (fetched.map PyErr.type)
    let normalized ← PyErr_NormalizeException env type value traceback
    let method_args : List PyObject := [normalized.1, normalized.2.1, normalized.2.2]
    let method_result ← PyObject_Call env instance_method method_args none
    unraisable_unless method_result instance_method
    PyErr_Restore normalized.1 normalized.2.1 normalized.2.2
    pure wrapped_result

/-- Model of `NRBackgroundTaskWrapper_call(self, args, kwds)`. -/
def NRBackgroundTaskWrapper_call (env : Env) (self : Nat) (args : List PyObject)
    (kwds : Option PyDict) : C (Option PyObject) := do
  let obj ← load_wrapper self
  /- Calculate name to be assigned to background task. -/
  let name ←
    if obj.name = some .Py_None then
      NRUtilities_CallableName env obj.wrapped_object (.NRBackgroundTaskWrapper self) args ":"
    else
      Py_REF obj.name
  /- Check to see if we are being called within the context of a web transaction. -/
  let current_transaction ← NRTransaction_CurrentTransaction env
  match current_transaction with
  | some (.NRWebTransaction id) =>
    let _ ← PyObject_SetAttrString env (.NRWebTransaction id) "background_task" .Py_True
    let method ← PyObject_GetAttrString env (some (.NRWebTransaction id)) "name_transaction"
    match method with
    | some m =>
      let result ← PyObject_CallFunctionObjArgs env m [some name, obj.scope]
      unraisable_unless result (some m)
      PyObject_Call env obj.wrapped_object args kwds
    | none =>
      PyErr_Clear
      NRBackgroundTaskWrapper_call_owned env obj name args kwds
  | _ => NRBackgroundTaskWrapper_call_owned env obj name args kwds

/-! ## py_background_task.c : BackgroundTaskDecorator -/

/-- Load the struct behind a decorator pointer. -/
def load_decorator (self : Nat) : C NRBackgroundTaskDecoratorObject := fun st =>
  match st.decorators[self]? with
  | some d => .ret d st
  | none => .undefined st

/-- Update the struct behind a decorator pointer. -/
def store_decorator (self : Nat)
    (f : NRBackgroundTaskDecoratorObject → NRBackgroundTaskDecoratorObject) : C Unit :=
  fun st =>
    match st.decorators[self]? with
    | some d => .ret () (st.with_decorators (st.decorators.set self (f d)))
    | none => .undefined st

/-- Model of `NRBackgroundTaskDecorator_new`: a fresh object with every member NULL; the result is
its address. -/
def NRBackgroundTaskDecorator_new : C Nat := fun st =>
  .ret st.decorators.length (st.with_decorators (st.decorators ++ [⟨none, none, none⟩]))

/-- Model of `NRBackgroundTaskDecorator_init(self, args, kwds)`. -/
def NRBackgroundTaskDecorator_init (self : Nat) (args : List PyObject)
    (kwds : Option PyDict) : C Int := do
  let parsed ← PyArg_ParseTupleAndKeywords 0 ["application", "name", "scope"] args kwds
  match parsed with
  | none => pure (-1)
  | some slots =>
    let application : PyObject := slot slots 0
    let name : PyObject := slot slots 1
    let scope : PyObject := slot slots 2
    if application ≠ .Py_None ∧ is_NRApplication application = false ∧
        PyString_Check application = false ∧ PyUnicode_Check application = false then do
      PyErr_SetString .PyExc_TypeError
        "application argument must be None, str, unicode, or application object, found type '%s'"
      pure (-1)
    else if PyString_Check name = false ∧ PyUnicode_Check name = false ∧
        name ≠ .Py_None then do
      PyErr_SetString .PyExc_TypeError
        "name argument must be str, unicode, or None, found type '%s'"
      pure (-1)
    else if PyString_Check scope = false ∧ PyUnicode_Check scope = false ∧
        scope ≠ .Py_None then do
      PyErr_SetString .PyExc_TypeError
        "scope argument must be str, unicode, or None, found type '%s'"
      pure (-1)
    else do
      store_decorator self fun d => { d with application := some application }
      store_decorator self fun d => { d with name := some name }
      store_decorator self fun d => { d with scope := some scope }
      pure 0

/-- Model of `NRBackgroundTaskDecorator_call(self, args, kwds)`. -/
def NRBackgroundTaskDecorator_call (env : Env) (self : Nat) (args : List PyObject)
    (kwds : Option PyDict) : C (Option PyObject) := do
  let parsed ← PyArg_ParseTupleAndKeywords 1 ["wrapped"] args kwds
  match parsed with
  | none => pure none
  | some slots =>
    let wrapped_object : Option PyObject := slots.getD 0 none
    let obj ← load_decorator self
    /- PyObject_CallFunctionObjArgs: the argument list ends at the first NULL -/
    NRBackgroundTaskWrapper_Type_call env
      (([wrapped_object, obj.application, obj.name, obj.scope].takeWhile
        Option.isSome).filterMap id) none

/-! ## py_settings.c -/

/-- Model of `NRSettings_set_log_level(self, value)`; `LOG_ERROR` and `LOG_VERBOSEDEBUG` come from
`logging.h`, which is not part of the sources, and are parameters. A NULL `value` is an
attribute deletion. -/
def NRSettings_set_log_level (LOG_ERROR LOG_VERBOSEDEBUG : Int) (value : Option PyObject) :
    C Int :=
  match value with
  | none => do
    PyErr_SetString .PyExc_TypeError "can't delete log_level attribute"
    pure (-1)
  | some v =>
    if PyInt_Check v = false then do
      PyErr_SetString .PyExc_TypeError "expected integer for log level"
      pure (-1)
    else
      let log_level : Int := long_to_int (PyInt_AsLong v)
      /- Constrain value as LOG_DUMP level in PHP code appears to have problems. -/
      if log_level < LOG_ERROR ∨ log_level > LOG_VERBOSEDEBUG then do
        PyErr_SetString .PyExc_ValueError "log level out of range"
        pure (-1)
      else do
        let globals ← get_globals
        set_globals { globals with loglevel := log_level }
        pure 0

/-! ## Observations used by the statements -/

/-- The state a run ended in. -/
def Run.state {α : Type} : Run α → Interp
  | .ret _ st => st
  | .undefined st => st

/-- The event is a call of a Python object. -/
def Event.isCall : Event → Bool
  | .Call _ _ _ => true
  | _ => false

/-- Calls of Python objects made between state `st` and the later state `st1`. -/
def new_calls (st st1 : Interp) : List Event :=
  (st1.trace.drop st.trace.length).filter Event.isCall

/-- The event is an attribute assignment or a call of a Python object. -/
def Event.isEffect : Event → Bool
  | .Call _ _ _ => true
  | .SetAttr _ _ _ => true
  | _ => false

/-- Attribute assignments and calls made between state `st` and the later state `st1`. -/
def new_effects (st st1 : Interp) : List Event :=
  (st1.trace.drop st.trace.length).filter Event.isEffect

/-- The name `NRBackgroundTaskWrapper_call` assigns to the task, for the wrapper at address
`self` with wrapped object `f` and configured name `nm`. -/
def resolved_name (env : Env) (self : Nat) (f nm : PyObject) (args : List PyObject) :
    PyObject :=
  if nm = .Py_None then
    env.NRUtilities_CallableName (some f) (.NRBackgroundTaskWrapper self) args ":"
  else nm

/-- The `(type, value, traceback)` the wrapper derives from a raised error `e`: a NULL
value or traceback becomes `None`, then the triple is normalized. -/
def exc_info (env : Env) (e : PyErr) : PyObject × PyObject × PyObject :=
  env.PyErr_NormalizeException (e.type, e.value.getD .Py_None, e.traceback.getD .Py_None)

/-- The arguments `__exit__` is to receive for an outcome of the wrapped call. -/
def exit_args (env : Env) (r : PyResult PyObject) : List PyObject :=
  match r with
  | .ok _ => [.Py_None, .Py_None, .Py_None]
  | .error e => [(exc_info env e).1, (exc_info env e).2.1, (exc_info env e).2.2]

/-- The error indicator after `PyErr_Restore` of a triple. -/
def restored (t : PyObject × PyObject × PyObject) : PyErr :=
  { type := t.1, value := some t.2.1,
    traceback := if PyTraceBack_Check t.2.2 then some t.2.2 else none }

/-- The application argument is `None`, a str/unicode, or an application object. -/
def application_ok (a : PyObject) : Prop :=
  a = .Py_None ∨ is_NRApplication a = true ∨ PyString_Check a = true ∨
    PyUnicode_Check a = true

/-- The argument is a str/unicode or `None`. -/
def text_or_none (n : PyObject) : Prop :=
  PyString_Check n = true ∨ PyUnicode_Check n = true ∨ n = .Py_None

/-- The arguments bind to `(application, name, scope)` and each has an accepted type. -/
def decorator_args_ok (args : List PyObject) (kwds : Option PyDict) : Prop :=
  ∃ slots, parse_args 0 ["application", "name", "scope"] args kwds = some slots ∧
    application_ok (slot slots 0) ∧ text_or_none (slot slots 1) ∧ text_or_none (slot slots 2)

/-- The application a wrapper ends up with for a configured `application`: the object
itself when it is an application object, otherwise what `NRApplication_Singleton` returns
for the identifier or, for `None`, for the process-wide application name; `none` when that
fails or the process-wide name is unset. -/
def resolved_application (env : Env) (st : Interp) (app : PyObject) : Option PyObject :=
  if is_NRApplication app = true then some app
  else if app = .Py_None then
    match st.nr_per_process_globals.appname with
    | none => none
    | some s =>
      match env.NRApplication_Singleton [.PyString s] with
      | .ok a => some a
      | .error _ => none
  else
    match env.NRApplication_Singleton [app] with
    | .ok a => some a
    | .error _ => none

/-- The wrapper and decorator objects are the same in both states. -/
def same_objects (st st1 : Interp) : Prop :=
  st1.wrappers = st.wrappers ∧ st1.decorators = st.decorators

/-- Between the two states no wrapper other than `self` changed, no wrapper was added or
removed, and the decorators are the same. -/
def only_wrapper (self : Nat) (st st1 : Interp) : Prop :=
  st1.decorators = st.decorators ∧ st1.wrappers.length = st.wrappers.length ∧
    ∀ i, i ≠ self → st1.wrappers[i]? = st.wrappers[i]?

/-- Every run of `m` relates the state it starts in to the state it ends in by `R`. -/
def Respects {α : Type} (R : Interp → Interp → Prop) (m : C α) : Prop :=
  ∀ st, R st (m st).state

/-- The log of `st1` continues the log of `st`. -/
def trace_grows (st st1 : Interp) : Prop :=
  ∃ evs, st1.trace = st.trace ++ evs

/-- The first call `NRBackgroundTaskWrapper_call` makes for a wrapper with application
`app`, scope `sc` and the task name `name`: `name_transaction(name, scope)` inside a web
transaction whose `name_transaction` is found, else the BackgroundTask constructor. -/
def naming_call (env : Env) (app sc name : PyObject) : Event :=
  match env.NRTransaction_CurrentTransaction with
  | some (.NRWebTransaction tid) =>
    match env.PyObject_GetAttrString (.NRWebTransaction tid) "name_transaction" with
    | .ok m => .Call m [name, sc] none
    | .error _ => .Call .NRBackgroundTask_Type [app, name, sc] none
  | _ => .Call .NRBackgroundTask_Type [app, name, sc] none

/-! ## Sample inputs -/

/-- An exception with value and traceback. -/
def sample_error : PyErr :=
  { type := .Object 50, value := some (.Object 51), traceback := some (.PyTraceBack 52) }

/-- No active transaction; `Object 1` returns `42`, `Object 2` raises `sample_error`; the
background task `NRBackgroundTask 7` has `__enter__` = `Object 10` and
`__exit__` = `Object 11`; every other call returns `None`. -/
def sample_env : Env where
  NRUtilities_CallableName := fun _ _ _ _ => .PyString "module:function"
  NRTransaction_CurrentTransaction := none
  PyObject_SetAttrString := fun _ _ _ => .ok ()
  PyObject_GetAttrString := fun _ attr =>
    if attr = "__enter__" then .ok (.Object 10)
    else if attr = "__exit__" then .ok (.Object 11)
    else if attr = "name_transaction" then .ok (.Object 12)
    else .error sample_error
  PyObject_Call := fun f _ _ =>
    match f with
    | .NRBackgroundTask_Type => .ok (.NRBackgroundTask 7)
    | .Object 1 => .ok (.PyInt 42)
    | .Object 2 => .error sample_error
    | _ => .ok .Py_None
  PyErr_NormalizeException := fun t => t
  NRApplication_Singleton := fun _ => .ok (.NRApplication 0)
  NRUtilities_UpdateWrapper := fun w _ => .ok w

/-- The sample environment inside the web transaction `NRWebTransaction 5`, whose
`name_transaction` is `Object 12`. -/
def sample_web_env : Env :=
  { sample_env with NRTransaction_CurrentTransaction := some (.NRWebTransaction 5) }

/-- The web environment in which looking up `name_transaction` fails. -/
def sample_web_env_lookup_fails : Env :=
  { sample_web_env with
    PyObject_GetAttrString := fun _ attr =>
      if attr = "__enter__" then .ok (.Object 10)
      else if attr = "__exit__" then .ok (.Object 11)
      else .error sample_error }

/-- The sample environment in which constructing a BackgroundTask raises `sample_error`;
all other calls behave as before. -/
def sample_env_construct_fails : Env :=
  { sample_env with
    PyObject_Call := fun f _ _ =>
      match f with
      | .NRBackgroundTask_Type => .error sample_error
      | .Object 1 => .ok (.PyInt 42)
      | .Object 2 => .error sample_error
      | _ => .ok .Py_None }

/-- The sample environment in which `NRUtilities_UpdateWrapper` raises `sample_error`. -/
def sample_env_update_fails : Env :=
  { sample_env with NRUtilities_UpdateWrapper := fun _ _ => .error sample_error }

/-- Two initialised wrappers: number 0 wraps `Object 1` under the name `job.run`, number 1
wraps `Object 2` with a derived name; one decorator. -/
def sample_state : Interp where
  curexc := none
  trace := []
  wrappers :=
    [⟨none, some (.Object 1), some (.NRApplication 0), some (.PyString "job.run"),
      some .Py_None⟩,
     ⟨none, some (.Object 2), some (.NRApplication 0), some .Py_None, some .Py_None⟩]
  decorators := [⟨some (.NRApplication 0), some (.PyString "job.run"), some .Py_None⟩]
  nr_per_process_globals := ⟨some "App1", none, 0⟩

/-- The sample state before any application name was assigned. -/
def sample_state_no_appname : Interp :=
  sample_state.with_globals ⟨none, none, 0⟩

/-- The sample environment in which `__enter__` (`Object 10`) raises `sample_error`. -/
def sample_env_enter_fails : Env :=
  { sample_env with
    PyObject_Call := fun f _ _ =>
      match f with
      | .NRBackgroundTask_Type => .ok (.NRBackgroundTask 7)
      | .Object 1 => .ok (.PyInt 42)
      | .Object 2 => .error sample_error
      | .Object 10 => .error sample_error
      | _ => .ok .Py_None }

/-- A base initializer that stores the application and creates a blank transaction
record; the path of a str name is its text; `NR_PATH_TYPE_CUSTOM` is 2. -/
def sample_transaction_env : TransactionEnv where
  NRTransaction_init := fun self args _ =>
    ({ self with application := args[0]?, transaction := some ⟨0, none, none, 0⟩ }, .ok ())
  NRUtilities_ConstructPath := fun name _ =>
    match name with
    | .PyString s => s
    | _ => ""
  NR_PATH_TYPE_CUSTOM := 2

/-- A base initializer that stores the application and creates no transaction record. -/
def sample_transaction_env_no_record : TransactionEnv :=
  { sample_transaction_env with
    NRTransaction_init := fun self args _ =>
      ({ self with application := args[0]?, transaction := none }, .ok ()) }

/-! ## Symbolic execution lemmas -/

@[simp] theorem run_pure {α : Type} (a : α) (st : Interp) :
    (pure a : C α) st = .ret a st := rfl

@[simp] theorem run_bind {α β : Type} (m : C α) (f : α → C β) (st : Interp) :
    (m >>= f) st = match m st with
      | .ret a st1 => f a st1
      | .undefined st1 => .undefined st1 := rfl

@[simp] theorem log_trace (st : Interp) (e : Event) : (st.log e).trace = st.trace ++ [e] := rfl

@[simp] theorem log_curexc (st : Interp) (e : Event) : (st.log e).curexc = st.curexc := rfl

@[simp] theorem log_wrappers (st : Interp) (e : Event) : (st.log e).wrappers = st.wrappers :=
  rfl

@[simp] theorem log_decorators (st : Interp) (e : Event) :
    (st.log e).decorators = st.decorators := rfl

@[simp] theorem log_globals (st : Interp) (e : Event) :
    (st.log e).nr_per_process_globals = st.nr_per_process_globals := rfl

@[simp] theorem with_curexc_trace (st : Interp) (e : Option PyErr) :
    (st.with_curexc e).trace = st.trace := rfl

@[simp] theorem with_curexc_curexc (st : Interp) (e : Option PyErr) :
    (st.with_curexc e).curexc = e := rfl

@[simp] theorem with_curexc_wrappers (st : Interp) (e : Option PyErr) :
    (st.with_curexc e).wrappers = st.wrappers := rfl

@[simp] theorem with_curexc_decorators (st : Interp) (e : Option PyErr) :
    (st.with_curexc e).decorators = st.decorators := rfl

@[simp] theorem with_curexc_globals (st : Interp) (e : Option PyErr) :
    (st.with_curexc e).nr_per_process_globals = st.nr_per_process_globals := rfl

theorem emit_run (e : Event) (st : Interp) : emit e st = .ret () (st.log e) := rfl

theorem set_curexc_run (e : Option PyErr) (st : Interp) :
    set_curexc e st = .ret () (st.with_curexc e) := rfl

theorem PyErr_Fetch_run (st : Interp) :
    PyErr_Fetch st = .ret st.curexc (st.with_curexc none) := rfl

theorem PyErr_Clear_run (st : Interp) : PyErr_Clear st = .ret () (st.with_curexc none) := rfl

theorem PyErr_Restore_run (t v tb : PyObject) (st : Interp) :
    PyErr_Restore t v tb st = .ret () (st.with_curexc (some (restored (t, v, tb)))) := rfl

theorem PyErr_SetString_run (t : PyObject) (msg : String) (st : Interp) :
    PyErr_SetString t msg st =
      .ret () (st.with_curexc (some (PyErr.mk t (some (.PyString msg)) none))) := rfl

theorem Py_REF_some (v : PyObject) (st : Interp) : Py_REF (some v) st = .ret v st := rfl

theorem Py_REF_none (st : Interp) : Py_REF none st = .undefined st := rfl

theorem PyObject_Call_run (env : Env) (f : PyObject) (args : List PyObject)
    (kwds : Option PyDict) (st : Interp) :
    PyObject_Call env (some f) args kwds st =
      match env.PyObject_Call f args kwds with
      | .ok v => .ret (some v) (st.log (.Call f args kwds))
      | .error e => .ret none ((st.log (.Call f args kwds)).with_curexc (some e)) := by
  simp only [PyObject_Call, Py_REF, run_bind, run_pure, emit, from_result]
  cases env.PyObject_Call f args kwds <;> simp [set_curexc]

theorem PyObject_Call_null (env : Env) (args : List PyObject) (kwds : Option PyDict)
    (st : Interp) : PyObject_Call env none args kwds st = .undefined st := rfl

theorem PyObject_GetAttrString_run (env : Env) (o : PyObject) (attr : String) (st : Interp) :
    PyObject_GetAttrString env (some o) attr st =
      match env.PyObject_GetAttrString o attr with
      | .ok v => .ret (some v) (st.log (.GetAttr o attr))
      | .error e => .ret none ((st.log (.GetAttr o attr)).with_curexc (some e)) := by
  simp only [PyObject_GetAttrString, Py_REF, run_bind, run_pure, emit, from_result]
  cases env.PyObject_GetAttrString o attr <;> simp [set_curexc]

theorem PyObject_GetAttrString_null (env : Env) (attr : String) (st : Interp) :
    PyObject_GetAttrString env none attr st = .undefined st := rfl

theorem PyObject_SetAttrString_run (env : Env) (o : PyObject) (attr : String) (v : PyObject)
    (st : Interp) :
    PyObject_SetAttrString env o attr v st =
      match env.PyObject_SetAttrString o attr v with
      | .ok _ => .ret 0 (st.log (.SetAttr o attr v))
      | .error e => .ret (-1) ((st.log (.SetAttr o attr v)).with_curexc (some e)) := by
  simp only [PyObject_SetAttrString, run_bind, run_pure, emit, from_result]
  cases env.PyObject_SetAttrString o attr v <;> simp [set_curexc]

theorem unraisable_unless_none (o : Option PyObject) (st : Interp) :
    unraisable_unless none o st =
      .ret () ((st.with_curexc none).log (.WriteUnraisable o st.curexc)) := rfl

theorem unraisable_unless_some (v : PyObject) (o : Option PyObject) (st : Interp) :
    unraisable_unless (some v) o st = .ret () st := rfl

theorem NRTransaction_CurrentTransaction_run (env : Env) (st : Interp) :
    NRTransaction_CurrentTransaction env st =
      .ret env.NRTransaction_CurrentTransaction (st.log .CurrentTransaction) := rfl

theorem NRUtilities_CallableName_run (env : Env) (w : Option PyObject) (self : PyObject)
    (args : List PyObject) (sep : String) (st : Interp) :
    NRUtilities_CallableName env w self args sep st =
      .ret (env.NRUtilities_CallableName w self args sep)
        (st.log (.CallableName w self args)) :=
  rfl

theorem PyErr_NormalizeException_run (env : Env) (t v tb : PyObject) (st : Interp) :
    PyErr_NormalizeException env t v tb st =
      .ret (env.PyErr_NormalizeException (t, v, tb)) st :=
  rfl

theorem load_wrapper_run (self : Nat) (st : Interp) (w : NRBackgroundTaskWrapperObject)
    (hw : st.wrappers[self]? = some w) : load_wrapper self st = .ret w st := by
  simp only [load_wrapper, hw]

/-- Outside a web transaction the dispatch of `NRBackgroundTaskWrapper_call` takes its
last branch. -/
theorem dispatch_not_web (env : Env)
    (hct : ∀ id, env.NRTransaction_CurrentTransaction ≠ some (.NRWebTransaction id))
    (k1 : Nat → C (Option PyObject)) (k2 : C (Option PyObject)) :
    (match env.NRTransaction_CurrentTransaction with
     | some (.NRWebTransaction id) => k1 id
     | _ => k2) = k2 := by
  split
  · next id h => exact absurd h (hct id)
  · rfl

/-! ## The wrapper call protocol -/

/-- C1. When the current transaction is not a web transaction (there is none, or it is of
another type) and construction of the BackgroundTask succeeds, yielding a context manager
`bt` whose `__enter__` and `__exit__` are found, `NRBackgroundTaskWrapper_call` returns, and
the calls it made are exactly: the constructor, one `__enter__()`, one call of the wrapped
object with the original arguments, one `__exit__(...)`, in that order. This holds whether
the wrapped callable returns or raises and whatever `__enter__` and `__exit__` do. -/
theorem C1_owned_path_begin_call_end (env : Env) (self : Nat) (args : List PyObject)
    (kwds : Option PyDict) (st : Interp) (d : Option PyObject)
    (f app nm sc bt m_enter m_exit : PyObject)
    (hw : st.wrappers[self]? = some ⟨d, some f, some app, some nm, some sc⟩)
    (hct : ∀ id, env.NRTransaction_CurrentTransaction ≠ some (.NRWebTransaction id))
    (hbt : env.PyObject_Call .NRBackgroundTask_Type
      [app, resolved_name env self f nm args, sc] none = .ok bt)
    (henter : env.PyObject_GetAttrString bt "__enter__" = .ok m_enter)
    (hexit : env.PyObject_GetAttrString bt "__exit__" = .ok m_exit) :
    ∃ r st1,
      NRBackgroundTaskWrapper_call env self args kwds st = .ret r st1 ∧
      new_calls st st1 =
        [.Call .NRBackgroundTask_Type [app, resolved_name env self f nm args, sc] none,
         .Call m_enter [] none,
         .Call f args kwds,
         .Call m_exit (exit_args env (env.PyObject_Call f args kwds)) none] := by
  have hcur := dispatch_not_web env hct
  by_cases hn : nm = .Py_None <;>
  rcases h1 : env.PyObject_Call m_enter [] none with v1 | e1 <;>
  rcases h2 : env.PyObject_Call f args kwds with v2 | e2 <;>
  rcases h3 : env.PyObject_Call m_exit (exit_args env (env.PyObject_Call f args kwds)) none
    with v3 | e3 <;>
  simp only [h2, exit_args, exc_info] at h3 <;>
  simp only [resolved_name, hn, if_true, if_false] at hbt <;>
  simp only [NRBackgroundTaskWrapper_call, load_wrapper_run _ _ _ hw, run_bind, if_true, hn,
    if_false, Option.some.injEq, NRUtilities_CallableName_run,
    NRTransaction_CurrentTransaction_run, hcur, NRBackgroundTaskWrapper_call_owned,
    PyObject_CallFunctionObjArgs, List.takeWhile, Option.isSome, List.filterMap, id,
    PyObject_Call_run, hbt, PyObject_GetAttrString_run, henter, hexit, h1, h2, h3,
    unraisable_unless_some, unraisable_unless_none, run_pure, resolved_name, PyErr_Fetch_run,
    Py_REF_some, PyErr_NormalizeException_run, PyErr_Restore_run, exit_args, exc_info,
    log_curexc, with_curexc_curexc, Option.map_some', Option.some_bind] <;>
  refine ⟨_, _, rfl, ?_⟩ <;>
  simp [Event.isCall, new_calls]

/-- Witness for C1: wrapper 0 of the sample state, no active transaction. -/
theorem C1_owned_path_begin_call_end_witness :
    ∃ r st1,
      NRBackgroundTaskWrapper_call sample_env 0 [.PyInt 42] none sample_state = .ret r st1 ∧
      new_calls sample_state st1 =
        [.Call .NRBackgroundTask_Type
           [.NRApplication 0, resolved_name sample_env 0 (.Object 1) (.PyString "job.run")
             [.PyInt 42], .Py_None] none,
         .Call (.Object 10) [] none,
         .Call (.Object 1) [.PyInt 42] none,
         .Call (.Object 11)
           (exit_args sample_env (sample_env.PyObject_Call (.Object 1) [.PyInt 42] none))
           none] :=
  C1_owned_path_begin_call_end sample_env 0 [.PyInt 42] none sample_state none
    (.Object 1) (.NRApplication 0) (.PyString "job.run") .Py_None (.NRBackgroundTask 7)
    (.Object 10) (.Object 11) rfl (fun _ h => nomatch h) rfl rfl rfl

/-- An error that is already in normal form, with value and traceback present, is
restored unchanged. -/
theorem restored_exc_info_of_normal (env : Env) (e : PyErr) (v0 : PyObject) (k : Nat)
    (hv : e.value = some v0) (ht : e.traceback = some (.PyTraceBack k))
    (hnorm : env.PyErr_NormalizeException (e.type, v0, .PyTraceBack k) =
      (e.type, v0, .PyTraceBack k)) :
    some (restored (exc_info env e)) = some e := by
  cases e with
  | mk t v tb =>
    simp only at hv ht hnorm
    subst hv ht
    simp [restored, exc_info, hnorm, PyTraceBack_Check]

/-- C2. On the owned-transaction path (not inside a web transaction, BackgroundTask `bt`
constructed, its `__enter__`/`__exit__` found), when the wrapped callable raises `e` the
wrapper calls `__exit__(type, value, traceback)` with the exception triple of `e` (NULL
members as `None`, normalized), as its last call, and then returns NULL with exactly that
type and value pending (the traceback too when it is a traceback object; the `None` that
stands for a missing traceback is stored as no traceback). When `e` is already in normal
form with value and traceback present, the pending error is `e` itself. This holds
whether `__enter__` and `__exit__` succeed or fail. -/
theorem C2_raise_reaches_exit_and_propagates (env : Env) (self : Nat) (args : List PyObject)
    (kwds : Option PyDict) (st : Interp) (d : Option PyObject)
    (f app nm sc bt m_enter m_exit : PyObject) (e : PyErr)
    (hw : st.wrappers[self]? = some ⟨d, some f, some app, some nm, some sc⟩)
    (hct : ∀ id, env.NRTransaction_CurrentTransaction ≠ some (.NRWebTransaction id))
    (hbt : env.PyObject_Call .NRBackgroundTask_Type
      [app, resolved_name env self f nm args, sc] none = .ok bt)
    (henter : env.PyObject_GetAttrString bt "__enter__" = .ok m_enter)
    (hexit : env.PyObject_GetAttrString bt "__exit__" = .ok m_exit)
    (hraise : env.PyObject_Call f args kwds = .error e) :
    ∃ st1,
      NRBackgroundTaskWrapper_call env self args kwds st = .ret none st1 ∧
      new_calls st st1 =
        [.Call .NRBackgroundTask_Type [app, resolved_name env self f nm args, sc] none,
         .Call m_enter [] none,
         .Call f args kwds,
         .Call m_exit [(exc_info env e).1, (exc_info env e).2.1, (exc_info env e).2.2] none] ∧
      st1.curexc = some (restored (exc_info env e)) ∧
      (∀ v0 k, e.value = some v0 → e.traceback = some (.PyTraceBack k) →
        env.PyErr_NormalizeException (e.type, v0, .PyTraceBack k) =
          (e.type, v0, .PyTraceBack k) →
        st1.curexc = some e) := by
  have hcur := dispatch_not_web env hct
  have hnormal := restored_exc_info_of_normal env e
  by_cases hn : nm = .Py_None <;>
  rcases h1 : env.PyObject_Call m_enter [] none with v1 | e1 <;>
  rcases h3 : env.PyObject_Call m_exit
    [(exc_info env e).1, (exc_info env e).2.1, (exc_info env e).2.2] none with v3 | e3 <;>
  simp only [exc_info] at h3 <;>
  simp only [resolved_name, hn, if_true, if_false] at hbt <;>
  simp only [NRBackgroundTaskWrapper_call, load_wrapper_run _ _ _ hw, run_bind, if_true, hn,
    if_false, Option.some.injEq, NRUtilities_CallableName_run,
    NRTransaction_CurrentTransaction_run, hcur, NRBackgroundTaskWrapper_call_owned,
    PyObject_CallFunctionObjArgs, List.takeWhile, Option.isSome, List.filterMap, id,
    PyObject_Call_run, hbt, PyObject_GetAttrString_run, henter, hexit, h1, hraise, h3,
    unraisable_unless_some, unraisable_unless_none, run_pure, resolved_name, PyErr_Fetch_run,
    Py_REF_some, PyErr_NormalizeException_run, PyErr_Restore_run, exc_info,
    log_curexc, with_curexc_curexc, Option.map_some', Option.some_bind] <;>
  refine ⟨_, rfl, ?_, ?_, ?_⟩ <;>
  first
    | exact hnormal
    | simp [Event.isCall, new_calls, exc_info]

/-- Witness for C2: wrapper 1 of the sample state wraps `Object 2`, which raises
`sample_error`. -/
theorem C2_raise_reaches_exit_and_propagates_witness :
    ∃ st1,
      NRBackgroundTaskWrapper_call sample_env 1 [] none sample_state = .ret none st1 ∧
      new_calls sample_state st1 =
        [.Call .NRBackgroundTask_Type
           [.NRApplication 0, resolved_name sample_env 1 (.Object 2) .Py_None [], .Py_None]
           none,
         .Call (.Object 10) [] none,
         .Call (.Object 2) [] none,
         .Call (.Object 11) [(exc_info sample_env sample_error).1,
           (exc_info sample_env sample_error).2.1, (exc_info sample_env sample_error).2.2]
           none] ∧
      st1.curexc = some (restored (exc_info sample_env sample_error)) ∧
      (∀ v0 k, sample_error.value = some v0 → sample_error.traceback = some (.PyTraceBack k) →
        sample_env.PyErr_NormalizeException (sample_error.type, v0, .PyTraceBack k) =
          (sample_error.type, v0, .PyTraceBack k) →
        st1.curexc = some sample_error) :=
  C2_raise_reaches_exit_and_propagates sample_env 1 [] none sample_state none
    (.Object 2) (.NRApplication 0) .Py_None .Py_None (.NRBackgroundTask 7)
    (.Object 10) (.Object 11) sample_error rfl (fun _ h => nomatch h) rfl rfl rfl rfl

/-- C3 fails as stated: inside the web transaction `NRWebTransaction 5`, when looking up
`name_transaction` fails, the wrapper sets `background_task`, clears the error and goes on
to construct a BackgroundTask and drive it around the wrapped call; `name_transaction` is
never called. -/
theorem C3_counterexample_lookup_failure :
    sample_web_env_lookup_fails.NRTransaction_CurrentTransaction =
      some (.NRWebTransaction 5) ∧
    ∃ st1,
      NRBackgroundTaskWrapper_call sample_web_env_lookup_fails 0 [.PyInt 42] none
        sample_state = .ret (some (.PyInt 42)) st1 ∧
      new_effects sample_state st1 =
        [.SetAttr (.NRWebTransaction 5) "background_task" .Py_True,
         .Call .NRBackgroundTask_Type [.NRApplication 0, .PyString "job.run", .Py_None] none,
         .Call (.Object 10) [] none,
         .Call (.Object 1) [.PyInt 42] none,
         .Call (.Object 11) [.Py_None, .Py_None, .Py_None] none] :=
  ⟨rfl, _, rfl, by decide⟩

/-- C3, amended. When the current transaction is a web transaction and its
`name_transaction` attribute is found, `NRBackgroundTaskWrapper_call` returns after exactly
these attribute assignments and calls, in this order: `background_task = True` on the
transaction, `name_transaction(name, scope)`, the wrapped object with the original
arguments. No BackgroundTask is constructed. -/
theorem C3_web_transaction_is_renamed_not_nested (env : Env) (self : Nat)
    (args : List PyObject) (kwds : Option PyDict) (st : Interp) (d : Option PyObject)
    (f app nm sc m : PyObject) (tid : Nat)
    (hw : st.wrappers[self]? = some ⟨d, some f, some app, some nm, some sc⟩)
    (hweb : env.NRTransaction_CurrentTransaction = some (.NRWebTransaction tid))
    (hm : env.PyObject_GetAttrString (.NRWebTransaction tid) "name_transaction" = .ok m) :
    ∃ r st1,
      NRBackgroundTaskWrapper_call env self args kwds st = .ret r st1 ∧
      new_effects st st1 =
        [.SetAttr (.NRWebTransaction tid) "background_task" .Py_True,
         .Call m [resolved_name env self f nm args, sc] none,
         .Call f args kwds] := by
  by_cases hn : nm = .Py_None <;>
  rcases h0 : env.PyObject_SetAttrString (.NRWebTransaction tid) "background_task" .Py_True
    with v0 | e0 <;>
  rcases h1 : env.PyObject_Call m [resolved_name env self f nm args, sc] none
    with v1 | e1 <;>
  rcases h2 : env.PyObject_Call f args kwds with v2 | e2 <;>
  simp only [resolved_name, hn, if_true, if_false] at h1 <;>
  simp only [NRBackgroundTaskWrapper_call, load_wrapper_run _ _ _ hw, run_bind, if_true, hn,
    if_false, Option.some.injEq, NRUtilities_CallableName_run,
    NRTransaction_CurrentTransaction_run, hweb, PyObject_SetAttrString_run, h0,
    PyObject_CallFunctionObjArgs, List.takeWhile, Option.isSome, List.filterMap, id,
    PyObject_Call_run, PyObject_GetAttrString_run, hm, h1, h2, Py_REF_some,
    unraisable_unless_some, unraisable_unless_none, run_pure, resolved_name] <;>
  refine ⟨_, _, rfl, ?_⟩ <;>
  simp [Event.isEffect, new_effects]

/-- Witness for C3: wrapper 0 of the sample state called inside a web transaction. -/
theorem C3_web_transaction_is_renamed_not_nested_witness :
    ∃ r st1,
      NRBackgroundTaskWrapper_call sample_web_env 0 [.PyInt 42] none sample_state =
        .ret r st1 ∧
      new_effects sample_state st1 =
        [.SetAttr (.NRWebTransaction 5) "background_task" .Py_True,
         .Call (.Object 12)
           [resolved_name sample_web_env 0 (.Object 1) (.PyString "job.run") [.PyInt 42],
            .Py_None] none,
         .Call (.Object 1) [.PyInt 42] none] :=
  C3_web_transaction_is_renamed_not_nested sample_web_env 0 [.PyInt 42] none sample_state
    none (.Object 1) (.NRApplication 0) (.PyString "job.run") .Py_None (.Object 12) 5
    rfl rfl rfl

/-- C4. On the owned-transaction path (not inside a web transaction, BackgroundTask `bt`
constructed, its `__enter__`/`__exit__` found) the outcome of the wrapper is the outcome of
calling the wrapped object with the same positional and keyword arguments, for every
outcome of `__exit__` (and of `__enter__`): if the wrapped callable returns `v` the wrapper
returns `v`, and no error is left pending if none was pending on entry; if it raises `e`
the wrapper returns NULL with the exception triple of `e` pending (`e` itself when `e` is in
normal form). -/
theorem C4_owned_path_outcome_is_wrapped_outcome (env : Env) (self : Nat)
    (args : List PyObject) (kwds : Option PyDict) (st : Interp) (d : Option PyObject)
    (f app nm sc bt m_enter m_exit : PyObject)
    (hw : st.wrappers[self]? = some ⟨d, some f, some app, some nm, some sc⟩)
    (hct : ∀ id, env.NRTransaction_CurrentTransaction ≠ some (.NRWebTransaction id))
    (hbt : env.PyObject_Call .NRBackgroundTask_Type
      [app, resolved_name env self f nm args, sc] none = .ok bt)
    (henter : env.PyObject_GetAttrString bt "__enter__" = .ok m_enter)
    (hexit : env.PyObject_GetAttrString bt "__exit__" = .ok m_exit) :
    match env.PyObject_Call f args kwds with
    | .ok v =>
      ∃ st1, NRBackgroundTaskWrapper_call env self args kwds st = .ret (some v) st1 ∧
        (st.curexc = none → st1.curexc = none)
    | .error e =>
      ∃ st1, NRBackgroundTaskWrapper_call env self args kwds st = .ret none st1 ∧
        st1.curexc = some (restored (exc_info env e)) ∧
        (∀ v0 k, e.value = some v0 → e.traceback = some (.PyTraceBack k) →
          env.PyErr_NormalizeException (e.type, v0, .PyTraceBack k) =
            (e.type, v0, .PyTraceBack k) →
          st1.curexc = some e) := by
  have hcur := dispatch_not_web env hct
  by_cases hn : nm = .Py_None <;>
  rcases h1 : env.PyObject_Call m_enter [] none with v1 | e1 <;>
  rcases h2 : env.PyObject_Call f args kwds with v2 | e2 <;>
  rcases h3 : env.PyObject_Call m_exit (exit_args env (env.PyObject_Call f args kwds)) none
    with v3 | e3 <;>
  simp only [h2, exit_args, exc_info] at h3 <;>
  simp only [resolved_name, hn, if_true, if_false] at hbt <;>
  simp only [NRBackgroundTaskWrapper_call, load_wrapper_run _ _ _ hw, run_bind, if_true, hn,
    if_false, Option.some.injEq, NRUtilities_CallableName_run,
    NRTransaction_CurrentTransaction_run, hcur, NRBackgroundTaskWrapper_call_owned,
    PyObject_CallFunctionObjArgs, List.takeWhile, Option.isSome, List.filterMap, id,
    PyObject_Call_run, hbt, PyObject_GetAttrString_run, henter, hexit, h1, h2, h3,
    unraisable_unless_some, unraisable_unless_none, run_pure, resolved_name, PyErr_Fetch_run,
    Py_REF_some, PyErr_NormalizeException_run, PyErr_Restore_run, exit_args, exc_info,
    log_curexc, with_curexc_curexc, Option.map_some', Option.some_bind] <;>
  first
    | exact ⟨_, rfl, fun h => h⟩
    | exact ⟨_, rfl, fun _ => rfl⟩
    | exact ⟨_, rfl, rfl, restored_exc_info_of_normal env _⟩

/-- Witness for C4: wrapper 0 of the sample state returns what `Object 1` returns. -/
theorem C4_owned_path_outcome_is_wrapped_outcome_witness :
    match sample_env.PyObject_Call (.Object 1) [.PyInt 42] none with
    | .ok v =>
      ∃ st1, NRBackgroundTaskWrapper_call sample_env 0 [.PyInt 42] none sample_state =
          .ret (some v) st1 ∧
        (sample_state.curexc = none → st1.curexc = none)
    | .error e =>
      ∃ st1, NRBackgroundTaskWrapper_call sample_env 0 [.PyInt 42] none sample_state =
          .ret none st1 ∧
        st1.curexc = some (restored (exc_info sample_env e)) ∧
        (∀ v0 k, e.value = some v0 → e.traceback = some (.PyTraceBack k) →
          sample_env.PyErr_NormalizeException (e.type, v0, .PyTraceBack k) =
            (e.type, v0, .PyTraceBack k) →
          st1.curexc = some e) :=
  C4_owned_path_outcome_is_wrapped_outcome sample_env 0 [.PyInt 42] none sample_state none
    (.Object 1) (.NRApplication 0) (.PyString "job.run") .Py_None (.NRBackgroundTask 7)
    (.Object 10) (.Object 11) rfl (fun _ h => nomatch h) rfl rfl rfl

/-- C5. On the piggyback path (the current transaction is a web transaction whose
`name_transaction` is found), whether the `name_transaction(name, scope)` call succeeds or
fails, the wrapper makes exactly two calls, `name_transaction(name, scope)` and then the
wrapped object with the original positional and keyword arguments, and its outcome is the
wrapped callable's: the same return value, or NULL with the very error the wrapped
callable raised. A failed rename is written as unraisable and is not pending when the
wrapped callable returns. -/
theorem C5_piggyback_outcome_is_wrapped_outcome (env : Env) (self : Nat)
    (args : List PyObject) (kwds : Option PyDict) (st : Interp) (d : Option PyObject)
    (f app nm sc m : PyObject) (tid : Nat)
    (hw : st.wrappers[self]? = some ⟨d, some f, some app, some nm, some sc⟩)
    (hweb : env.NRTransaction_CurrentTransaction = some (.NRWebTransaction tid))
    (hm : env.PyObject_GetAttrString (.NRWebTransaction tid) "name_transaction" = .ok m) :
    ∃ st1,
      NRBackgroundTaskWrapper_call env self args kwds st =
        .ret (match env.PyObject_Call f args kwds with
              | .ok v => some v
              | .error _ => none) st1 ∧
      new_calls st st1 =
        [.Call m [resolved_name env self f nm args, sc] none, .Call f args kwds] ∧
      (∀ e, env.PyObject_Call f args kwds = .error e → st1.curexc = some e) ∧
      (∀ er v, env.PyObject_Call m [resolved_name env self f nm args, sc] none = .error er →
        env.PyObject_Call f args kwds = .ok v → st1.curexc = none) := by
  by_cases hn : nm = .Py_None <;>
  rcases h0 : env.PyObject_SetAttrString (.NRWebTransaction tid) "background_task" .Py_True
    with v0 | e0 <;>
  rcases h1 : env.PyObject_Call m [resolved_name env self f nm args, sc] none
    with v1 | e1 <;>
  rcases h2 : env.PyObject_Call f args kwds with v2 | e2 <;>
  simp only [resolved_name, hn, if_true, if_false] at h1 <;>
  simp only [NRBackgroundTaskWrapper_call, load_wrapper_run _ _ _ hw, run_bind, if_true, hn,
    if_false, Option.some.injEq, NRUtilities_CallableName_run,
    NRTransaction_CurrentTransaction_run, hweb, PyObject_SetAttrString_run, h0,
    PyObject_CallFunctionObjArgs, List.takeWhile, Option.isSome, List.filterMap, id,
    PyObject_Call_run, PyObject_GetAttrString_run, hm, h1, h2, Py_REF_some,
    unraisable_unless_some, unraisable_unless_none, run_pure, resolved_name] <;>
  refine ⟨_, rfl, ?_, ?_, ?_⟩ <;>
  simp [Event.isCall, new_calls]

/-- Witness for C5: wrapper 0 of the sample state called inside a web transaction. -/
theorem C5_piggyback_outcome_is_wrapped_outcome_witness :
    ∃ st1,
      NRBackgroundTaskWrapper_call sample_web_env 0 [.PyInt 42] none sample_state =
        .ret (match sample_web_env.PyObject_Call (.Object 1) [.PyInt 42] none with
              | .ok v => some v
              | .error _ => none) st1 ∧
      new_calls sample_state st1 =
        [.Call (.Object 12)
           [resolved_name sample_web_env 0 (.Object 1) (.PyString "job.run") [.PyInt 42],
            .Py_None] none,
         .Call (.Object 1) [.PyInt 42] none] ∧
      (∀ e, sample_web_env.PyObject_Call (.Object 1) [.PyInt 42] none = .error e →
        st1.curexc = some e) ∧
      (∀ er v, sample_web_env.PyObject_Call (.Object 12)
          [resolved_name sample_web_env 0 (.Object 1) (.PyString "job.run") [.PyInt 42],
           .Py_None] none = .error er →
        sample_web_env.PyObject_Call (.Object 1) [.PyInt 42] none = .ok v →
        st1.curexc = none) :=
  C5_piggyback_outcome_is_wrapped_outcome sample_web_env 0 [.PyInt 42] none sample_state
    none (.Object 1) (.NRApplication 0) (.PyString "job.run") .Py_None (.Object 12) 5
    rfl rfl rfl

/-- A failed construction of the BackgroundTask outside a web transaction ends the run in
undefined behaviour right after the constructor call, whatever the environment: the NULL
result is dereferenced by the lookup of `__enter__`. -/
theorem construction_failure_undefined (env : Env) (self : Nat) (args : List PyObject)
    (kwds : Option PyDict) (st : Interp) (d : Option PyObject) (f app nm sc : PyObject)
    (e : PyErr)
    (hw : st.wrappers[self]? = some ⟨d, some f, some app, some nm, some sc⟩)
    (hct : ∀ id, env.NRTransaction_CurrentTransaction ≠ some (.NRWebTransaction id))
    (hbt : env.PyObject_Call .NRBackgroundTask_Type
      [app, resolved_name env self f nm args, sc] none = .error e) :
    ∃ st1,
      NRBackgroundTaskWrapper_call env self args kwds st = .undefined st1 ∧
      new_calls st st1 =
        [.Call .NRBackgroundTask_Type [app, resolved_name env self f nm args, sc] none] := by
  have hcur := dispatch_not_web env hct
  by_cases hn : nm = .Py_None <;>
  simp only [resolved_name, hn, if_true, if_false] at hbt <;>
  simp only [NRBackgroundTaskWrapper_call, load_wrapper_run _ _ _ hw, run_bind, if_true, hn,
    if_false, Option.some.injEq, NRUtilities_CallableName_run,
    NRTransaction_CurrentTransaction_run, hcur, NRBackgroundTaskWrapper_call_owned,
    PyObject_CallFunctionObjArgs, List.takeWhile, Option.isSome, List.filterMap, id,
    PyObject_Call_run, hbt, PyObject_GetAttrString_null, Py_REF_some, resolved_name] <;>
  refine ⟨_, rfl, ?_⟩ <;>
  simp [Event.isCall, new_calls]

/-- C6 fails on the code: with no active transaction, when constructing the BackgroundTask
raises, `NRBackgroundTaskWrapper_call` hands the NULL result to
`PyObject_GetAttrString(background_task, "__enter__")`, which dereferences it. The run is
undefined from there; the only call made before is the constructor, the wrapped object
`Object 1` is never called. -/
theorem C6_construction_failure_is_undefined :
    sample_env_construct_fails.NRTransaction_CurrentTransaction = none ∧
    sample_env_construct_fails.PyObject_Call .NRBackgroundTask_Type
      [.NRApplication 0, .PyString "job.run", .Py_None] none = .error sample_error ∧
    ∃ st1,
      NRBackgroundTaskWrapper_call sample_env_construct_fails 0 [.PyInt 42] none
        sample_state = .undefined st1 ∧
      new_calls sample_state st1 =
        [.Call .NRBackgroundTask_Type [.NRApplication 0, .PyString "job.run", .Py_None]
          none] :=
  ⟨rfl, rfl, _, rfl, by decide⟩

/-! ## Settings -/

theorem long_to_int_of_int_range (v : Int) (hlo : -2 ^ 31 ≤ v) (hhi : v < 2 ^ 31) :
    long_to_int v = v := by
  unfold long_to_int
  norm_num at hlo hhi ⊢
  omega

theorem long_to_int_add_two_pow (v : Int) (hlo : -2 ^ 31 ≤ v) (hhi : v < 2 ^ 31) :
    long_to_int (v + 2 ^ 32) = v := by
  unfold long_to_int
  norm_num at hlo hhi ⊢
  omega

/-- For integers that fit a C `int`, `NRSettings_set_log_level` raises `ValueError` for the
values outside `[LOG_ERROR, LOG_VERBOSEDEBUG]`, leaving the store alone, and stores the
others. -/
theorem set_log_level_int_range (LOG_ERROR LOG_VERBOSEDEBUG v : Int) (st : Interp)
    (hlo : -2 ^ 31 ≤ v) (hhi : v < 2 ^ 31) :
    NRSettings_set_log_level LOG_ERROR LOG_VERBOSEDEBUG (some (.PyInt v)) st =
      if v < LOG_ERROR ∨ v > LOG_VERBOSEDEBUG then
        .ret (-1) (st.with_curexc
          (some (PyErr.mk .PyExc_ValueError (some (.PyString "log level out of range")) none)))
      else
        .ret 0 (st.with_globals { st.nr_per_process_globals with loglevel := v }) := by
  simp only [NRSettings_set_log_level, PyInt_Check, PyInt_AsLong,
    long_to_int_of_int_range v hlo hhi]
  rw [if_neg (by simp)]
  by_cases h : v < LOG_ERROR ∨ v > LOG_VERBOSEDEBUG
  · rw [if_pos h, if_pos h]
    rfl
  · rw [if_neg h, if_neg h]
    rfl

/-- C7 fails on the code (LP64): the C `long` held by the integer is narrowed to `int`
before the range test. For any constants with
`INT_MIN <= LOG_ERROR <= LOG_VERBOSEDEBUG <= INT_MAX`, the value `LOG_ERROR + 2^32` is a
valid C `long` above `LOG_VERBOSEDEBUG`, yet assigning it succeeds and the stored level
becomes `LOG_ERROR`. -/
theorem C7_out_of_range_long_is_accepted (LOG_ERROR LOG_VERBOSEDEBUG : Int) (st : Interp)
    (hlo : -2 ^ 31 ≤ LOG_ERROR) (hle : LOG_ERROR ≤ LOG_VERBOSEDEBUG)
    (hhi : LOG_VERBOSEDEBUG < 2 ^ 31) :
    LOG_VERBOSEDEBUG < LOG_ERROR + 2 ^ 32 ∧ LOG_ERROR + 2 ^ 32 < 2 ^ 63 ∧
    NRSettings_set_log_level LOG_ERROR LOG_VERBOSEDEBUG
        (some (.PyInt (LOG_ERROR + 2 ^ 32))) st =
      .ret 0 (st.with_globals { st.nr_per_process_globals with loglevel := LOG_ERROR }) := by
  have hi : LOG_ERROR < 2 ^ 31 := lt_of_le_of_lt hle hhi
  refine ⟨?_, ?_, ?_⟩
  · norm_num at hlo hhi ⊢
    omega
  · norm_num at hlo hi ⊢
    omega
  · simp only [NRSettings_set_log_level, PyInt_Check, PyInt_AsLong,
      long_to_int_add_two_pow LOG_ERROR hlo hi]
    rw [if_neg (by simp), if_neg (by omega)]
    rfl

/-- Witness for C7 with `LOG_ERROR = 1` and `LOG_VERBOSEDEBUG = 6`: assigning
`4294967297` stores level `1`. -/
theorem C7_out_of_range_long_is_accepted_witness :
    (6 : Int) < 1 + 2 ^ 32 ∧ (1 : Int) + 2 ^ 32 < 2 ^ 63 ∧
    NRSettings_set_log_level 1 6 (some (.PyInt (1 + 2 ^ 32))) sample_state =
      .ret 0 (sample_state.with_globals
        { sample_state.nr_per_process_globals with loglevel := 1 }) :=
  C7_out_of_range_long_is_accepted 1 6 sample_state (by decide) (by decide) (by decide)

/-! ## The decorator -/

@[simp] theorem with_decorators_decorators (st : Interp)
    (ds : List NRBackgroundTaskDecoratorObject) : (st.with_decorators ds).decorators = ds :=
  rfl

@[simp] theorem with_decorators_wrappers (st : Interp)
    (ds : List NRBackgroundTaskDecoratorObject) :
    (st.with_decorators ds).wrappers = st.wrappers := rfl

@[simp] theorem with_decorators_twice (st : Interp)
    (ds ds1 : List NRBackgroundTaskDecoratorObject) :
    (st.with_decorators ds).with_decorators ds1 = st.with_decorators ds1 := rfl

theorem store_decorator_run (self : Nat) (st : Interp) (d : NRBackgroundTaskDecoratorObject)
    (f : NRBackgroundTaskDecoratorObject → NRBackgroundTaskDecoratorObject)
    (hd : st.decorators[self]? = some d) :
    store_decorator self f st =
      .ret () (st.with_decorators (st.decorators.set self (f d))) := by
  simp only [store_decorator, hd]

theorem getElem?_set_of_some {α : Type} (l : List α) (i : Nat) (a b : α)
    (h : l[i]? = some a) : (l.set i b)[i]? = some b := by
  have hi : i < l.length := by
    rcases List.getElem?_eq_some.mp h with ⟨hi, _⟩
    exact hi
  simp [hi]

/-- Positional calls bind the arguments in order; missing ones leave their slot
untouched. -/
theorem parse_args_positional3 (k0 k1 k2 : String) (args : List PyObject)
    (h : args.length ≤ 3) :
    parse_args 0 [k0, k1, k2] args none = some [args[0]?, args[1]?, args[2]?] := by
  rcases args with _ | ⟨a0, _ | ⟨a1, _ | ⟨a2, _ | ⟨a3, rest⟩⟩⟩⟩
  · simp [parse_args, parse_slots]
  · simp [parse_args, parse_slots]
  · simp [parse_args, parse_slots]
  · simp [parse_args, parse_slots]
  · simp at h

theorem application_ok_check (a : PyObject) (ha : application_ok a) :
    ¬ (a ≠ .Py_None ∧ is_NRApplication a = false ∧ PyString_Check a = false ∧
      PyUnicode_Check a = false) := by
  unfold application_ok at ha
  intro h
  rcases h with ⟨h1, h2, h3, h4⟩
  rcases ha with ha | ha | ha | ha
  · exact h1 ha
  · rw [h2] at ha; cases ha
  · rw [h3] at ha; cases ha
  · rw [h4] at ha; cases ha

theorem text_or_none_check (n : PyObject) (hn : text_or_none n) :
    ¬ (PyString_Check n = false ∧ PyUnicode_Check n = false ∧ n ≠ .Py_None) := by
  unfold text_or_none at hn
  intro h
  rcases h with ⟨h1, h2, h3⟩
  rcases hn with hn | hn | hn
  · rw [h1] at hn; cases hn
  · rw [h2] at hn; cases hn
  · exact h3 hn

theorem application_ok_of_check (a : PyObject)
    (h : ¬ (a ≠ .Py_None ∧ is_NRApplication a = false ∧ PyString_Check a = false ∧
      PyUnicode_Check a = false)) : application_ok a := by
  unfold application_ok
  by_cases h1 : a = .Py_None
  · exact Or.inl h1
  · cases h2 : is_NRApplication a
    · cases h3 : PyString_Check a
      · cases h4 : PyUnicode_Check a
        · exact absurd ⟨h1, h2, h3, h4⟩ h
        · exact Or.inr (Or.inr (Or.inr rfl))
      · exact Or.inr (Or.inr (Or.inl rfl))
    · exact Or.inr (Or.inl rfl)

theorem text_or_none_of_check (n : PyObject)
    (h : ¬ (PyString_Check n = false ∧ PyUnicode_Check n = false ∧ n ≠ .Py_None)) :
    text_or_none n := by
  unfold text_or_none
  by_cases h3 : n = .Py_None
  · exact Or.inr (Or.inr h3)
  · cases h1 : PyString_Check n
    · cases h2 : PyUnicode_Check n
      · exact absurd ⟨h1, h2, h3⟩ h
      · exact Or.inr (Or.inl rfl)
    · exact Or.inl rfl

/-- C8. `NRBackgroundTaskDecorator_init` on an allocated decorator succeeds (returns 0) if
and only if its arguments bind to `(application, name, scope)` with `application` `None`, a
str/unicode or an application object and `name`, `scope` each a str/unicode or `None`. On
success the decorator holds exactly the bound `(application, name, scope)`, an omitted
argument being `None`; otherwise the call returns -1 with `TypeError` pending and the
decorator is unchanged. -/
theorem C8_decorator_init_validates_and_stores (self : Nat) (args : List PyObject)
    (kwds : Option PyDict) (st : Interp) (d : NRBackgroundTaskDecoratorObject)
    (hd : st.decorators[self]? = some d) :
    ((∃ st1, NRBackgroundTaskDecorator_init self args kwds st = .ret 0 st1) ↔
      decorator_args_ok args kwds) ∧
    (∀ slots, parse_args 0 ["application", "name", "scope"] args kwds = some slots →
      application_ok (slot slots 0) → text_or_none (slot slots 1) →
      text_or_none (slot slots 2) →
      NRBackgroundTaskDecorator_init self args kwds st =
        .ret 0 (st.with_decorators (st.decorators.set self
          ⟨some (slot slots 0), some (slot slots 1), some (slot slots 2)⟩))) ∧
    (¬ decorator_args_ok args kwds →
      ∃ st1, NRBackgroundTaskDecorator_init self args kwds st = .ret (-1) st1 ∧
        st1.curexc.map PyErr.type = some .PyExc_TypeError ∧
        st1.decorators = st.decorators) := by
  have hstore : ∀ slots, parse_args 0 ["application", "name", "scope"] args kwds = some slots →
      application_ok (slot slots 0) → text_or_none (slot slots 1) →
      text_or_none (slot slots 2) →
      NRBackgroundTaskDecorator_init self args kwds st =
        .ret 0 (st.with_decorators (st.decorators.set self
          ⟨some (slot slots 0), some (slot slots 1), some (slot slots 2)⟩)) := by
    intro slots hp ha hn hs
    have c1 := application_ok_check _ ha
    have c2 := text_or_none_check _ hn
    have c3 := text_or_none_check _ hs
    have hd1 := getElem?_set_of_some st.decorators self d
      { d with application := some (slot slots 0) } hd
    have hd2 := getElem?_set_of_some _ self _
      { ({ d with application := some (slot slots 0) } :
          NRBackgroundTaskDecoratorObject) with name := some (slot slots 1) } hd1
    simp only [NRBackgroundTaskDecorator_init, PyArg_ParseTupleAndKeywords, hp, run_bind,
      run_pure, if_neg c1, if_neg c2, if_neg c3]
    rw [store_decorator_run self st d _ hd]
    simp only []
    rw [store_decorator_run self _ _ _ (by simpa using hd1)]
    simp only [with_decorators_decorators, with_decorators_twice, List.set_set]
    rw [store_decorator_run self _ _ _ (by simpa using hd2)]
    simp only [with_decorators_decorators, with_decorators_twice, List.set_set]
  have hfail : ¬ decorator_args_ok args kwds →
      ∃ st1, NRBackgroundTaskDecorator_init self args kwds st = .ret (-1) st1 ∧
        st1.curexc.map PyErr.type = some .PyExc_TypeError ∧
        st1.decorators = st.decorators := by
    intro hbad
    rcases hp : parse_args 0 ["application", "name", "scope"] args kwds with _ | slots
    · simp only [NRBackgroundTaskDecorator_init, PyArg_ParseTupleAndKeywords, hp, run_bind,
          run_pure, set_curexc_run]
      exact ⟨_, rfl, rfl, rfl⟩
    · by_cases c1 : slot slots 0 ≠ .Py_None ∧ is_NRApplication (slot slots 0) = false ∧
          PyString_Check (slot slots 0) = false ∧ PyUnicode_Check (slot slots 0) = false
      · simp only [NRBackgroundTaskDecorator_init, PyArg_ParseTupleAndKeywords, hp, run_bind,
            run_pure, if_pos c1, PyErr_SetString_run]
        exact ⟨_, rfl, rfl, rfl⟩
      · by_cases c2 : PyString_Check (slot slots 1) = false ∧
            PyUnicode_Check (slot slots 1) = false ∧ slot slots 1 ≠ .Py_None
        · simp only [NRBackgroundTaskDecorator_init, PyArg_ParseTupleAndKeywords, hp,
              run_bind, run_pure, if_neg c1, if_pos c2, PyErr_SetString_run]
          exact ⟨_, rfl, rfl, rfl⟩
        · by_cases c3 : PyString_Check (slot slots 2) = false ∧
              PyUnicode_Check (slot slots 2) = false ∧ slot slots 2 ≠ .Py_None
          · simp only [NRBackgroundTaskDecorator_init, PyArg_ParseTupleAndKeywords, hp,
                run_bind, run_pure, if_neg c1, if_neg c2, if_pos c3, PyErr_SetString_run]
            exact ⟨_, rfl, rfl, rfl⟩
          · exact absurd ⟨slots, hp, application_ok_of_check _ c1, text_or_none_of_check _ c2,
              text_or_none_of_check _ c3⟩ hbad
  refine ⟨⟨?_, ?_⟩, hstore, hfail⟩
  · rintro ⟨st1, h0⟩
    by_contra hbad
    rcases hfail hbad with ⟨st2, h1, _⟩
    rw [h0] at h1
    cases h1
  · rintro ⟨slots, hp, ha, hn, hs⟩
    exact ⟨_, hstore slots hp ha hn hs⟩

/-- Witness for C8: `BackgroundTaskDecorator(app, "job.run")` on decorator 0 of the sample
state stores `(app, "job.run", None)`. -/
theorem C8_decorator_init_validates_and_stores_witness :
    ((∃ st1, NRBackgroundTaskDecorator_init 0 [.NRApplication 0, .PyString "job.run"] none
        sample_state = .ret 0 st1) ↔
      decorator_args_ok [.NRApplication 0, .PyString "job.run"] none) ∧
    (∀ slots, parse_args 0 ["application", "name", "scope"]
        [.NRApplication 0, .PyString "job.run"] none = some slots →
      application_ok (slot slots 0) → text_or_none (slot slots 1) →
      text_or_none (slot slots 2) →
      NRBackgroundTaskDecorator_init 0 [.NRApplication 0, .PyString "job.run"] none
          sample_state =
        .ret 0 (sample_state.with_decorators (sample_state.decorators.set 0
          ⟨some (slot slots 0), some (slot slots 1), some (slot slots 2)⟩))) ∧
    (¬ decorator_args_ok [.NRApplication 0, .PyString "job.run"] none →
      ∃ st1, NRBackgroundTaskDecorator_init 0 [.NRApplication 0, .PyString "job.run"] none
          sample_state = .ret (-1) st1 ∧
        st1.curexc.map PyErr.type = some .PyExc_TypeError ∧
        st1.decorators = sample_state.decorators) :=
  C8_decorator_init_validates_and_stores 0 [.NRApplication 0, .PyString "job.run"] none
    sample_state ⟨some (.NRApplication 0), some (.PyString "job.run"), some .Py_None⟩ rfl

@[simp] theorem with_wrappers_wrappers (st : Interp)
    (ws : List NRBackgroundTaskWrapperObject) : (st.with_wrappers ws).wrappers = ws := rfl

@[simp] theorem with_wrappers_decorators (st : Interp)
    (ws : List NRBackgroundTaskWrapperObject) :
    (st.with_wrappers ws).decorators = st.decorators := rfl

@[simp] theorem with_wrappers_globals (st : Interp)
    (ws : List NRBackgroundTaskWrapperObject) :
    (st.with_wrappers ws).nr_per_process_globals = st.nr_per_process_globals := rfl

@[simp] theorem with_wrappers_twice (st : Interp)
    (ws ws1 : List NRBackgroundTaskWrapperObject) :
    (st.with_wrappers ws).with_wrappers ws1 = st.with_wrappers ws1 := rfl

@[simp] theorem log_with_wrappers (st : Interp) (e : Event)
    (ws : List NRBackgroundTaskWrapperObject) :
    (st.log e).with_wrappers ws = (st.with_wrappers ws).log e := rfl

@[simp] theorem with_curexc_with_wrappers (st : Interp) (e : Option PyErr)
    (ws : List NRBackgroundTaskWrapperObject) :
    (st.with_curexc e).with_wrappers ws = (st.with_wrappers ws).with_curexc e := rfl

theorem store_wrapper_run (self : Nat) (st : Interp) (w : NRBackgroundTaskWrapperObject)
    (f : NRBackgroundTaskWrapperObject → NRBackgroundTaskWrapperObject)
    (hw : st.wrappers[self]? = some w) :
    store_wrapper self f st = .ret () (st.with_wrappers (st.wrappers.set self (f w))) := by
  simp only [store_wrapper, hw]

theorem NRApplication_Singleton_run (env : Env) (args : List PyObject) (st : Interp) :
    NRApplication_Singleton env args st =
      match env.NRApplication_Singleton args with
      | .ok v => .ret (some v) (st.log (.ApplicationSingleton args))
      | .error e => .ret none ((st.log (.ApplicationSingleton args)).with_curexc (some e)) := by
  simp only [NRApplication_Singleton, run_bind, run_pure, emit, from_result]
  cases env.NRApplication_Singleton args <;> simp [set_curexc]

theorem NRUtilities_UpdateWrapper_run (env : Env) (w f : PyObject) (st : Interp) :
    NRUtilities_UpdateWrapper env w f st =
      match env.NRUtilities_UpdateWrapper w f with
      | .ok v => .ret (some v) (st.log (.UpdateWrapper w f))
      | .error e => .ret none ((st.log (.UpdateWrapper w f)).with_curexc (some e)) := by
  simp only [NRUtilities_UpdateWrapper, run_bind, run_pure, emit, from_result]
  cases env.NRUtilities_UpdateWrapper w f <;> simp [set_curexc]

/-- The application lookup of `NRBackgroundTaskWrapper_init` yields the resolved
application and leaves wrappers and decorators alone. -/
theorem resolve_application_run (env : Env) (st : Interp) (app a : PyObject)
    (hres : resolved_application env st app = some a) :
    ∃ st1,
      NRBackgroundTaskWrapper_init_application env app st = .ret (some a) st1 ∧
      st1.wrappers = st.wrappers ∧ st1.decorators = st.decorators := by
  unfold resolved_application at hres
  unfold NRBackgroundTaskWrapper_init_application
  cases h1 : is_NRApplication app
  · simp only [h1, Bool.false_eq_true, if_true, if_false] at hres ⊢
    by_cases h2 : app = .Py_None
    · simp only [h2, if_true] at hres ⊢
      rcases h3 : st.nr_per_process_globals.appname with _ | s
      · simp [h3] at hres
      · simp only [h3] at hres
        rcases h4 : env.NRApplication_Singleton [.PyString s] with v | e
        · simp only [h4, Option.some.injEq] at hres
          subst hres
          refine ⟨st.log (.ApplicationSingleton [.PyString s]), ?_, rfl, rfl⟩
          simp only [run_bind, get_globals, h3, PyString_FromString, run_pure,
            NRApplication_Singleton_run, h4]
        · simp [h4] at hres
    · simp only [h2, if_false] at hres ⊢
      rcases h4 : env.NRApplication_Singleton [app] with v | e
      · simp only [h4, Option.some.injEq] at hres
        subst hres
        refine ⟨st.log (.ApplicationSingleton [app]), ?_, rfl, rfl⟩
        simp only [NRApplication_Singleton_run, h4]
      · simp [h4] at hres
  · simp only [h1, if_true, Option.some.injEq] at hres
    subst hres
    exact ⟨st, by simp, rfl, rfl⟩

theorem parse_args_positional4 (k0 k1 k2 k3 : String) (f app nm sc : PyObject) :
    parse_args 1 [k0, k1, k2, k3] [f, app, nm, sc] none =
      some [some f, some app, some nm, some sc] := by
  simp [parse_args, parse_slots]

theorem store_wrapper_after_set (self : Nat) (st : Interp)
    (ws : List NRBackgroundTaskWrapperObject) (w0 w1 : NRBackgroundTaskWrapperObject)
    (f : NRBackgroundTaskWrapperObject → NRBackgroundTaskWrapperObject)
    (h : ws[self]? = some w0) :
    store_wrapper self f (st.with_wrappers (ws.set self w1)) =
      .ret () (st.with_wrappers (ws.set self (f w1))) := by
  rw [store_wrapper_run self _ w1 f (getElem?_set_of_some ws self w0 w1 h)]
  simp only [with_wrappers_wrappers, with_wrappers_twice, List.set_set]

/-- Model of `NRBackgroundTaskWrapper_init` with positional arguments of accepted types and a
resolving application: the struct of `self` receives the four members; the result is 0, or
-1 with the error of `NRUtilities_UpdateWrapper` pending when that call fails. -/
theorem wrapper_init_run (env : Env) (self : Nat) (st : Interp)
    (w : NRBackgroundTaskWrapperObject) (f app nm sc a : PyObject)
    (hw : st.wrappers[self]? = some w)
    (happ : application_ok app) (hnm : text_or_none nm) (hsc : text_or_none sc)
    (hres : resolved_application env st app = some a) :
    ∃ r st1,
      NRBackgroundTaskWrapper_init env self [f, app, nm, sc] none st = .ret r st1 ∧
      st1.wrappers = st.wrappers.set self ⟨w.dict, some f, some a, some nm, some sc⟩ ∧
      st1.decorators = st.decorators ∧
      (match env.NRUtilities_UpdateWrapper (.NRBackgroundTaskWrapper self) f with
       | .ok _ => r = 0
       | .error e => r = -1 ∧ st1.curexc = some e) := by
  rcases resolve_application_run env st app a hres with ⟨st1, hrun, hw1, hd1⟩
  have c1 := application_ok_check app happ
  have c2 := text_or_none_check nm hnm
  have c3 := text_or_none_check sc hsc
  have hw2 : st1.wrappers[self]? = some w := by rw [hw1]; exact hw
  simp only [NRBackgroundTaskWrapper_init, PyArg_ParseTupleAndKeywords,
    parse_args_positional4, run_bind, run_pure, slot, List.getD_cons_zero, List.getD_cons_succ,
    Option.getD_some, if_neg c1, if_neg c2, if_neg c3, hrun, Py_REF_some,
    store_wrapper_run self st1 w _ hw2, store_wrapper_after_set self st1 st1.wrappers w _ _ hw2,
    NRUtilities_UpdateWrapper_run]
  rcases hu : env.NRUtilities_UpdateWrapper (.NRBackgroundTaskWrapper self) f with v | e
  · exact ⟨_, _, rfl, by simp [hw1], by simp [hd1], rfl⟩
  · exact ⟨_, _, rfl, by simp [hw1], by simp [hd1], rfl, rfl⟩

/-- C9 fails as stated: applying the (valid) decorator 0 of the sample state to `Object 1`
when `NRUtilities_UpdateWrapper` raises gives NULL with that error pending, not a
wrapper. -/
theorem C9_counterexample_update_wrapper_failure :
    sample_state.decorators[0]? =
      some ⟨some (.NRApplication 0), some (.PyString "job.run"), some .Py_None⟩ ∧
    ∃ st1,
      NRBackgroundTaskDecorator_call sample_env_update_fails 0 [.Object 1] none
        sample_state = .ret none st1 ∧
      st1.curexc = some sample_error :=
  ⟨rfl, _, rfl, rfl⟩

/-- C9, amended. Let a decorator hold a configuration `(application, name, scope)` of the
accepted types and let `f` be the object it is applied to (`decorator(f)` or
`decorator(wrapped=f)`). If the application resolves to `a` (it is an application object,
or `NRApplication_Singleton` returns `a` for the identifier or, for `None`, for the
process-wide application name), then `NRBackgroundTaskDecorator_call` returns and leaves
the decorators unchanged, and: when `NRUtilities_UpdateWrapper` succeeds the result is a
new BackgroundTaskWrapper whose wrapped object is `f`, whose application is `a` and whose
name and scope are the decorator's; when it fails the result is NULL with that error
pending. -/
theorem C9_decorator_call_binds_configuration (env : Env) (self : Nat)
    (args : List PyObject) (kwds : Option PyDict) (st : Interp) (f app nm sc a : PyObject)
    (hd : st.decorators[self]? = some ⟨some app, some nm, some sc⟩)
    (hparse : parse_args 1 ["wrapped"] args kwds = some [some f])
    (happ : application_ok app) (hnm : text_or_none nm) (hsc : text_or_none sc)
    (hres : resolved_application env st app = some a) :
    ∃ r st1,
      NRBackgroundTaskDecorator_call env self args kwds st = .ret r st1 ∧
      st1.decorators = st.decorators ∧
      (match env.NRUtilities_UpdateWrapper (.NRBackgroundTaskWrapper st.wrappers.length) f with
       | .ok _ =>
         r = some (.NRBackgroundTaskWrapper st.wrappers.length) ∧
         st1.wrappers[st.wrappers.length]? = some ⟨none, some f, some a, some nm, some sc⟩
       | .error e => r = none ∧ st1.curexc = some e) := by
  rcases wrapper_init_run env st.wrappers.length
      (st.with_wrappers (st.wrappers ++ [⟨none, none, none, none, none⟩]))
      ⟨none, none, none, none, none⟩ f app nm sc a
      (by simp) happ hnm hsc hres with ⟨r, st1, hinit, hws, hds, hm⟩
  simp only [NRBackgroundTaskDecorator_call, PyArg_ParseTupleAndKeywords, hparse, run_bind,
    run_pure, load_decorator, hd, List.getD_cons_zero, List.takeWhile, Option.isSome,
    List.filterMap, id, NRBackgroundTaskWrapper_Type_call, NRBackgroundTaskWrapper_new, hinit]
  rcases hu : env.NRUtilities_UpdateWrapper (.NRBackgroundTaskWrapper st.wrappers.length) f
    with v | e
  · simp only [hu] at hm
    subst hm
    refine ⟨_, _, rfl, by simpa using hds, rfl, ?_⟩
    rw [hws]
    simp
  · simp only [hu] at hm
    rcases hm with ⟨hr, he⟩
    subst hr
    exact ⟨_, _, rfl, by simpa using hds, rfl, he⟩

/-- Witness for C9: decorator 0 of the sample state applied to `Object 1`. -/
theorem C9_decorator_call_binds_configuration_witness :
    ∃ r st1,
      NRBackgroundTaskDecorator_call sample_env 0 [.Object 1] none sample_state =
        .ret r st1 ∧
      st1.decorators = sample_state.decorators ∧
      (match sample_env.NRUtilities_UpdateWrapper
          (.NRBackgroundTaskWrapper sample_state.wrappers.length) (.Object 1) with
       | .ok _ =>
         r = some (.NRBackgroundTaskWrapper sample_state.wrappers.length) ∧
         st1.wrappers[sample_state.wrappers.length]? =
           some ⟨none, some (.Object 1), some (.NRApplication 0),
             some (.PyString "job.run"), some .Py_None⟩
       | .error e => r = none ∧ st1.curexc = some e) :=
  C9_decorator_call_binds_configuration sample_env 0 [.Object 1] none sample_state
    (.Object 1) (.NRApplication 0) (.PyString "job.run") .Py_None (.NRApplication 0)
    rfl rfl (Or.inr (Or.inl rfl)) (Or.inl rfl) (Or.inr (Or.inr rfl)) rfl

/-! ## Frame properties -/

theorem same_objects_refl (st : Interp) : same_objects st st := ⟨rfl, rfl⟩

theorem same_objects_trans (a b c : Interp) (h1 : same_objects a b) (h2 : same_objects b c) :
    same_objects a c :=
  ⟨h2.1.trans h1.1, h2.2.trans h1.2⟩

theorem respects_bind {α β : Type} (R : Interp → Interp → Prop)
    (htrans : ∀ a b c, R a b → R b c → R a c) (m : C α) (f : α → C β)
    (hm : Respects R m) (hf : ∀ a, Respects R (f a)) : Respects R (m >>= f) := by
  intro st
  have h := hm st
  rw [run_bind]
  cases hrun : m st with
  | ret a st1 =>
    rw [hrun] at h
    exact htrans _ _ _ h (hf a st1)
  | undefined st1 =>
    rw [hrun] at h
    exact h

theorem same_bind {α β : Type} (m : C α) (f : α → C β)
    (hm : Respects same_objects m) (hf : ∀ a, Respects same_objects (f a)) :
    Respects same_objects (m >>= f) :=
  respects_bind same_objects same_objects_trans m f hm hf

theorem same_pure {α : Type} (a : α) : Respects same_objects (pure a : C α) :=
  fun st => same_objects_refl st

theorem same_undefined {α : Type} : Respects same_objects (undefined_behaviour : C α) :=
  fun st => same_objects_refl st

theorem same_emit (e : Event) : Respects same_objects (emit e) := fun _ => ⟨rfl, rfl⟩

theorem same_set_curexc (e : Option PyErr) : Respects same_objects (set_curexc e) :=
  fun _ => ⟨rfl, rfl⟩

theorem same_Py_REF (o : Option PyObject) : Respects same_objects (Py_REF o) := by
  cases o
  · exact same_undefined
  · exact same_pure _

theorem same_from_result {α : Type} (r : PyResult α) :
    Respects same_objects (from_result r) := by
  cases r
  · exact same_pure _
  · exact fun _ => ⟨rfl, rfl⟩

theorem same_PyErr_Fetch : Respects same_objects PyErr_Fetch := fun _ => ⟨rfl, rfl⟩

theorem same_PyErr_Clear : Respects same_objects PyErr_Clear := fun _ => ⟨rfl, rfl⟩

theorem same_PyErr_Restore (t v tb : PyObject) : Respects same_objects (PyErr_Restore t v tb) :=
  fun _ => ⟨rfl, rfl⟩

theorem same_PyErr_SetString (t : PyObject) (msg : String) :
    Respects same_objects (PyErr_SetString t msg) :=
  fun _ => ⟨rfl, rfl⟩

theorem same_unraisable_unless (r o : Option PyObject) :
    Respects same_objects (unraisable_unless r o) := by
  cases r
  · exact fun _ => ⟨rfl, rfl⟩
  · exact same_pure _

theorem same_PyObject_Call (env : Env) (f : Option PyObject) (args : List PyObject)
    (kwds : Option PyDict) : Respects same_objects (PyObject_Call env f args kwds) := by
  unfold PyObject_Call
  exact same_bind _ _ (same_Py_REF f) fun _ =>
    same_bind _ _ (same_emit _) fun _ => same_from_result _

theorem same_PyObject_CallFunctionObjArgs (env : Env) (f : PyObject)
    (args : List (Option PyObject)) :
    Respects same_objects (PyObject_CallFunctionObjArgs env f args) :=
  same_PyObject_Call env _ _ _

theorem same_PyObject_GetAttrString (env : Env) (o : Option PyObject) (attr : String) :
    Respects same_objects (PyObject_GetAttrString env o attr) := by
  unfold PyObject_GetAttrString
  exact same_bind _ _ (same_Py_REF o) fun _ =>
    same_bind _ _ (same_emit _) fun _ => same_from_result _

theorem same_PyObject_SetAttrString (env : Env) (o : PyObject) (attr : String)
    (v : PyObject) : Respects same_objects (PyObject_SetAttrString env o attr v) := by
  unfold PyObject_SetAttrString
  exact same_bind _ _ (same_emit _) fun _ =>
    same_bind _ _ (same_from_result _) fun _ => same_pure _

theorem same_load_wrapper (self : Nat) : Respects same_objects (load_wrapper self) := by
  intro st
  unfold load_wrapper
  cases st.wrappers[self]? <;> exact ⟨rfl, rfl⟩

theorem same_owned (env : Env) (w : NRBackgroundTaskWrapperObject) (name : PyObject)
    (args : List PyObject) (kwds : Option PyDict) :
    Respects same_objects (NRBackgroundTaskWrapper_call_owned env w name args kwds) := by
  unfold NRBackgroundTaskWrapper_call_owned
  refine same_bind _ _ (same_PyObject_CallFunctionObjArgs _ _ _) fun background_task => ?_
  refine same_bind _ _ (same_PyObject_GetAttrString _ _ _) fun m1 => ?_
  refine same_bind _ _ (same_PyObject_Call _ _ _ _) fun r1 => ?_
  refine same_bind _ _ (same_unraisable_unless _ _) fun _ => ?_
  refine same_bind _ _ (same_PyObject_Call _ _ _ _) fun wrapped_result => ?_
  refine same_bind _ _ (same_PyObject_GetAttrString _ _ _) fun m2 => ?_
  cases wrapped_result with
  | some v =>
    refine same_bind _ _ (same_PyObject_Call _ _ _ _) fun r2 => ?_
    refine same_bind _ _ (same_unraisable_unless _ _) fun _ => ?_
    exact same_pure _
  | none =>
    refine same_bind _ _ same_PyErr_Fetch fun fetched => ?_
    refine same_bind _ _ (same_Py_REF _) fun type => ?_
    refine same_bind _ _ (same_pure _) fun normalized => ?_
    refine same_bind _ _ (same_PyObject_Call _ _ _ _) fun r2 => ?_
    refine same_bind _ _ (same_unraisable_unless _ _) fun _ => ?_
    refine same_bind _ _ (same_PyErr_Restore _ _ _) fun _ => ?_
    exact same_pure _

theorem same_dispatch (env : Env) (obj : NRBackgroundTaskWrapperObject) (name : PyObject)
    (args : List PyObject) (kwds : Option PyDict) :
    Respects same_objects (do
      let current_transaction ← NRTransaction_CurrentTransaction env
      match current_transaction with
      | some (.NRWebTransaction id) =>
        let _ ← PyObject_SetAttrString env (.NRWebTransaction id) "background_task" .Py_True
        let method ← PyObject_GetAttrString env (some (.NRWebTransaction id))
          "name_transaction"
        match method with
        | some m =>
          let result ← PyObject_CallFunctionObjArgs env m [some name, obj.scope]
          unraisable_unless result (some m)
          PyObject_Call env obj.wrapped_object args kwds
        | none =>
          PyErr_Clear
          NRBackgroundTaskWrapper_call_owned env obj name args kwds
      | _ => NRBackgroundTaskWrapper_call_owned env obj name args kwds) := by
  refine same_bind _ _ (same_bind _ _ (same_emit _) fun _ => same_pure _) fun ct => ?_
  split
  · refine same_bind _ _ (same_PyObject_SetAttrString _ _ _ _) fun _ => ?_
    refine same_bind _ _ (same_PyObject_GetAttrString _ _ _) fun method => ?_
    cases method with
    | some m =>
      refine same_bind _ _ (same_PyObject_CallFunctionObjArgs _ _ _) fun result => ?_
      refine same_bind _ _ (same_unraisable_unless _ _) fun _ => ?_
      exact same_PyObject_Call _ _ _ _
    | none =>
      refine same_bind _ _ same_PyErr_Clear fun _ => ?_
      exact same_owned _ _ _ _ _
  · exact same_owned _ _ _ _ _

theorem same_call (env : Env) (self : Nat) (args : List PyObject) (kwds : Option PyDict) :
    Respects same_objects (NRBackgroundTaskWrapper_call env self args kwds) := by
  unfold NRBackgroundTaskWrapper_call
  refine same_bind _ _ (same_load_wrapper _) fun obj => ?_
  dsimp only
  split
  · refine same_bind _ _ ?_ fun name => same_dispatch env obj name args kwds
    exact same_bind _ _ (same_emit _) fun _ => same_pure _
  · exact same_bind _ _ (same_Py_REF _) fun name => same_dispatch env obj name args kwds

theorem only_wrapper_refl (self : Nat) (st : Interp) : only_wrapper self st st :=
  ⟨rfl, rfl, fun _ _ => rfl⟩

theorem only_wrapper_trans (self : Nat) (a b c : Interp) (h1 : only_wrapper self a b)
    (h2 : only_wrapper self b c) : only_wrapper self a c :=
  ⟨h2.1.trans h1.1, h2.2.1.trans h1.2.1, fun i hi => (h2.2.2 i hi).trans (h1.2.2 i hi)⟩

theorem only_of_same {α : Type} (self : Nat) (m : C α) (h : Respects same_objects m) :
    Respects (only_wrapper self) m := by
  intro st
  rcases h st with ⟨hw, hd⟩
  exact ⟨hd, by rw [hw], fun _ _ => by rw [hw]⟩

theorem only_bind {α β : Type} (self : Nat) (m : C α) (f : α → C β)
    (hm : Respects (only_wrapper self) m) (hf : ∀ a, Respects (only_wrapper self) (f a)) :
    Respects (only_wrapper self) (m >>= f) :=
  respects_bind (only_wrapper self) (only_wrapper_trans self) m f hm hf

theorem only_pure {α : Type} (self : Nat) (a : α) :
    Respects (only_wrapper self) (pure a : C α) :=
  fun st => only_wrapper_refl self st

theorem only_store_wrapper (self : Nat)
    (f : NRBackgroundTaskWrapperObject → NRBackgroundTaskWrapperObject) :
    Respects (only_wrapper self) (store_wrapper self f) := by
  intro st
  unfold store_wrapper
  cases h : st.wrappers[self]? with
  | none => exact only_wrapper_refl self st
  | some w =>
    refine ⟨rfl, ?_, ?_⟩
    · simp [Run.state]
    · intro i hi
      simp [Run.state, List.getElem?_set_ne (Ne.symm hi)]

theorem same_PyArg_ParseTupleAndKeywords (min : Nat) (kwlist : List String)
    (args : List PyObject) (kwds : Option PyDict) :
    Respects same_objects (PyArg_ParseTupleAndKeywords min kwlist args kwds) := by
  unfold PyArg_ParseTupleAndKeywords
  split
  · exact same_bind _ _ (same_set_curexc _) fun _ => same_pure _
  · exact same_pure _

theorem same_NRApplication_Singleton (env : Env) (args : List PyObject) :
    Respects same_objects (NRApplication_Singleton env args) := by
  unfold NRApplication_Singleton
  exact same_bind _ _ (same_emit _) fun _ => same_from_result _

theorem same_NRUtilities_UpdateWrapper (env : Env) (w f : PyObject) :
    Respects same_objects (NRUtilities_UpdateWrapper env w f) := by
  unfold NRUtilities_UpdateWrapper
  exact same_bind _ _ (same_emit _) fun _ => same_from_result _

theorem same_init_application (env : Env) (application : PyObject) :
    Respects same_objects (NRBackgroundTaskWrapper_init_application env application) := by
  unfold NRBackgroundTaskWrapper_init_application
  split
  · split
    · refine same_bind _ _ (fun _ => ⟨rfl, rfl⟩) fun globals => ?_
      refine same_bind _ _ ?_ fun _ => same_NRApplication_Singleton _ _
      unfold PyString_FromString
      split
      · exact same_pure _
      · exact same_undefined
    · exact same_NRApplication_Singleton _ _
  · exact same_pure _

theorem only_init (env : Env) (self : Nat) (args : List PyObject) (kwds : Option PyDict) :
    Respects (only_wrapper self) (NRBackgroundTaskWrapper_init env self args kwds) := by
  unfold NRBackgroundTaskWrapper_init
  refine only_bind _ _ _ (only_of_same _ _ (same_PyArg_ParseTupleAndKeywords _ _ _ _))
    fun parsed => ?_
  cases parsed with
  | none => exact only_pure _ _
  | some slots =>
    dsimp only
    split
    · exact only_of_same _ _ (same_bind _ _ (same_PyErr_SetString _ _) fun _ => same_pure _)
    · split
      · exact only_of_same _ _ (same_bind _ _ (same_PyErr_SetString _ _) fun _ => same_pure _)
      · split
        · exact only_of_same _ _
            (same_bind _ _ (same_PyErr_SetString _ _) fun _ => same_pure _)
        · refine only_bind _ _ _ (only_of_same _ _ (same_init_application _ _)) fun app => ?_
          refine only_bind _ _ _ (only_of_same _ _ (same_Py_REF _)) fun wrapped => ?_
          refine only_bind _ _ _ (only_store_wrapper _ _) fun _ => ?_
          refine only_bind _ _ _ (only_of_same _ _ (same_Py_REF _)) fun application => ?_
          refine only_bind _ _ _ (only_store_wrapper _ _) fun _ => ?_
          refine only_bind _ _ _ (only_store_wrapper _ _) fun _ => ?_
          refine only_bind _ _ _ (only_store_wrapper _ _) fun _ => ?_
          refine only_bind _ _ _ (only_of_same _ _ (same_NRUtilities_UpdateWrapper _ _ _))
            fun wrapper => ?_
          cases wrapper <;> exact only_pure _ _

/-- Creating a wrapper through its type leaves the decorators and the existing wrappers
alone; a wrapper it returns is the one new object. -/
theorem type_call_frame (env : Env) (args : List PyObject) (kwds : Option PyDict)
    (st : Interp) :
    (NRBackgroundTaskWrapper_Type_call env args kwds st).state.decorators = st.decorators ∧
    (NRBackgroundTaskWrapper_Type_call env args kwds st).state.wrappers.take
      st.wrappers.length = st.wrappers ∧
    ∀ w st1, NRBackgroundTaskWrapper_Type_call env args kwds st = .ret (some w) st1 →
      w = .NRBackgroundTaskWrapper st.wrappers.length ∧
      st1.wrappers.length = st.wrappers.length + 1 := by
  have h := only_init env st.wrappers.length args kwds
    (st.with_wrappers (st.wrappers ++ [⟨none, none, none, none, none⟩]))
  have key : ∀ st1 : Interp,
      only_wrapper st.wrappers.length
        (st.with_wrappers (st.wrappers ++ [⟨none, none, none, none, none⟩])) st1 →
      st1.decorators = st.decorators ∧
      st1.wrappers.take st.wrappers.length = st.wrappers ∧
      st1.wrappers.length = st.wrappers.length + 1 := by
    intro st1 ho
    rcases ho with ⟨hd, hl, hi⟩
    refine ⟨hd, ?_, by simpa using hl⟩
    apply List.ext_getElem?
    intro i
    by_cases hlt : i < st.wrappers.length
    · rw [List.getElem?_take_of_lt hlt, hi i (Nat.ne_of_lt hlt)]
      simp [List.getElem?_append_left hlt]
    · rw [List.getElem?_take_eq_none (Nat.le_of_not_lt hlt)]
      exact (List.getElem?_eq_none (Nat.le_of_not_lt hlt)).symm
  simp only [NRBackgroundTaskWrapper_Type_call, NRBackgroundTaskWrapper_new, run_bind]
  cases hrun : NRBackgroundTaskWrapper_init env st.wrappers.length args kwds
      (st.with_wrappers (st.wrappers ++ [⟨none, none, none, none, none⟩])) with
  | ret r st1 =>
    rw [hrun] at h
    rcases key st1 h with ⟨k1, k2, k3⟩
    by_cases hr : r < 0
    · simp only [hr, if_true, run_pure, Run.state]
      exact ⟨k1, k2, fun w st2 hw => by cases hw⟩
    · simp only [hr, if_false, run_pure, Run.state]
      refine ⟨k1, k2, fun w st2 hw => ?_⟩
      cases hw
      exact ⟨rfl, k3⟩
  | undefined st1 =>
    rw [hrun] at h
    rcases key st1 h with ⟨k1, k2, _⟩
    exact ⟨k1, k2, fun w st2 hw => by cases hw⟩

/-- Applying a decorator leaves the decorators and the existing wrappers alone; a wrapper
it returns is the one new object. -/
theorem decorator_call_frame (env : Env) (self : Nat) (args : List PyObject)
    (kwds : Option PyDict) (st : Interp) :
    (NRBackgroundTaskDecorator_call env self args kwds st).state.decorators =
      st.decorators ∧
    (NRBackgroundTaskDecorator_call env self args kwds st).state.wrappers.take
      st.wrappers.length = st.wrappers ∧
    ∀ w st1, NRBackgroundTaskDecorator_call env self args kwds st = .ret (some w) st1 →
      w = .NRBackgroundTaskWrapper st.wrappers.length ∧
      st1.wrappers.length = st.wrappers.length + 1 := by
  rcases hp : parse_args 1 ["wrapped"] args kwds with _ | slots
  · simp [NRBackgroundTaskDecorator_call, PyArg_ParseTupleAndKeywords, hp, set_curexc_run,
      Run.state]
  · rcases hd : st.decorators[self]? with _ | d
    · simp [NRBackgroundTaskDecorator_call, PyArg_ParseTupleAndKeywords, hp, load_decorator,
        hd, Run.state]
    · simp only [NRBackgroundTaskDecorator_call, PyArg_ParseTupleAndKeywords, hp, run_bind,
        run_pure, load_decorator, hd]
      exact type_call_frame env _ none st

/-- C10. Wrappers produced from one decorator are independent objects, and calls do not
write to them. For every environment and state:
applying a decorator (`NRBackgroundTaskDecorator_call`) leaves every decorator, so the
decorator's `(application, name, scope)`, and every existing wrapper unchanged;
calling a wrapper (`NRBackgroundTaskWrapper_call`) leaves every wrapper's
`(wrapped_object, application, name, scope)` and every decorator unchanged, whichever path
the call takes and however it ends;
two successive applications that each return a wrapper return two different objects, and
the second application leaves the first wrapper as it was. -/
theorem C10_wrappers_are_independent (env : Env) (st : Interp) :
    (∀ d args kwds,
      (NRBackgroundTaskDecorator_call env d args kwds st).state.decorators = st.decorators ∧
      (NRBackgroundTaskDecorator_call env d args kwds st).state.wrappers.take
        st.wrappers.length = st.wrappers) ∧
    (∀ self args kwds,
      same_objects st (NRBackgroundTaskWrapper_call env self args kwds st).state) ∧
    (∀ env2 d args1 kwds1 args2 kwds2 w1 w2 st1 st2,
      NRBackgroundTaskDecorator_call env d args1 kwds1 st = .ret (some w1) st1 →
      NRBackgroundTaskDecorator_call env2 d args2 kwds2 st1 = .ret (some w2) st2 →
      w1 = .NRBackgroundTaskWrapper st.wrappers.length ∧
      w2 = .NRBackgroundTaskWrapper (st.wrappers.length + 1) ∧
      st2.wrappers[st.wrappers.length]? = st1.wrappers[st.wrappers.length]? ∧
      st2.decorators = st.decorators) := by
  refine ⟨fun d args kwds => ?_, fun self args kwds => same_call env self args kwds st, ?_⟩
  · exact ⟨(decorator_call_frame env d args kwds st).1,
      (decorator_call_frame env d args kwds st).2.1⟩
  · intro env2 d args1 kwds1 args2 kwds2 w1 w2 st1 st2 h1 h2
    have f1 := decorator_call_frame env d args1 kwds1 st
    have f2 := decorator_call_frame env2 d args2 kwds2 st1
    rcases f1.2.2 w1 st1 h1 with ⟨hw1, hl1⟩
    rcases f2.2.2 w2 st2 h2 with ⟨hw2, _⟩
    have hd1 := f1.1
    have hd2 := f2.1
    have ht2 := f2.2.1
    rw [h1] at hd1
    rw [h2] at hd2 ht2
    simp only [Run.state] at hd1 hd2 ht2
    refine ⟨hw1, by rw [hw2, hl1], ?_, hd2.trans hd1⟩
    have hlt : st.wrappers.length < st1.wrappers.length := by omega
    have := congrArg (fun l => l[st.wrappers.length]?) ht2
    simp only [List.getElem?_take_of_lt hlt] at this
    exact this

/-- Witness for C10: decorator 0 of the sample state applied to `Object 1` and then to
`Object 2` gives the wrappers 2 and 3; the second application leaves wrapper 2 and the
decorator as they were. -/
theorem C10_wrappers_are_independent_witness :
    ∃ st1 st2,
      NRBackgroundTaskDecorator_call sample_env 0 [.Object 1] none sample_state =
        .ret (some (.NRBackgroundTaskWrapper 2)) st1 ∧
      NRBackgroundTaskDecorator_call sample_env 0 [.Object 2] none st1 =
        .ret (some (.NRBackgroundTaskWrapper 3)) st2 ∧
      st2.wrappers[2]? = st1.wrappers[2]? ∧
      st2.decorators = sample_state.decorators :=
  ⟨_, _, rfl, rfl,
    ((C10_wrappers_are_independent sample_env sample_state).2.2 sample_env 0 [.Object 1] none
      [.Object 2] none _ _ _ _ rfl rfl).2.2⟩

/-! ## Application resolution with no application name -/

/-- With no process-wide application name, `NRBackgroundTaskWrapper_init` for an
application argument that is `None` or omitted ends in undefined behaviour, whatever the
environment: `PyString_FromString` is handed the NULL name. Nothing was written or raised
before. -/
theorem unset_appname_undefined (env : Env) (self : Nat) (st : Interp)
    (args : List PyObject) (kwds : Option PyDict) (slots : List (Option PyObject))
    (hparse : parse_args 1 ["wrapped", "application", "name", "scope"] args kwds = some slots)
    (happ : slot slots 1 = .Py_None) (hnm : text_or_none (slot slots 2))
    (hsc : text_or_none (slot slots 3))
    (hname : st.nr_per_process_globals.appname = none) :
    NRBackgroundTaskWrapper_init env self args kwds st = .undefined st := by
  have c1 : ¬ (slot slots 1 ≠ .Py_None ∧ is_NRApplication (slot slots 1) = false ∧
      PyString_Check (slot slots 1) = false ∧ PyUnicode_Check (slot slots 1) = false) :=
    fun h => h.1 happ
  have c2 := text_or_none_check _ hnm
  have c3 := text_or_none_check _ hsc
  simp only [NRBackgroundTaskWrapper_init, PyArg_ParseTupleAndKeywords, hparse, run_bind,
    run_pure, if_neg c1, if_neg c2, if_neg c3]
  simp only [happ, NRBackgroundTaskWrapper_init_application, is_NRApplication, if_true,
    run_bind, get_globals, hname, PyString_FromString, undefined_behaviour]

/-- C11 fails on the code: constructing `BackgroundTaskWrapper(f)` (application omitted, so
`None`) while the process-wide application name is unset does not return failure. The
initializer passes the NULL name to `PyString_FromString`, which dereferences it: the run
is undefined, no error has been raised and the new object still has every member NULL. -/
theorem C11_unset_appname_is_undefined :
    sample_state_no_appname.nr_per_process_globals.appname = none ∧
    ∃ st1,
      NRBackgroundTaskWrapper_Type_call sample_env [.Object 1] none sample_state_no_appname =
        .undefined st1 ∧
      st1.curexc = none ∧
      st1.wrappers[sample_state_no_appname.wrappers.length]? =
        some ⟨none, none, none, none, none⟩ :=
  ⟨rfl, _, rfl, rfl, rfl⟩

/-! ## BackgroundTask initialisation -/

/-- The checks of `NRBackgroundTask_init` that precede the base initializer, for arguments
of accepted types: the outcome only depends on whether the object was initialised before
and on what the base initializer does. -/
theorem background_task_init_run (tenv : TransactionEnv) (self : NRTransactionObject)
    (args : List PyObject) (kwds : Option PyDict) (st : Interp)
    (slots : List (Option PyObject)) (app name : PyObject)
    (hparse : parse_args 2 ["application", "name", "scope"] args kwds = some slots)
    (h0 : slots.getD 0 none = some app) (h1 : slots.getD 1 none = some name)
    (happ : is_NRApplication app = true)
    (hname : PyString_Check name = true ∨ PyUnicode_Check name = true)
    (hscope : text_or_none (slot slots 2)) :
    NRBackgroundTask_init tenv self args kwds st =
      if self.application.isSome = true then
        .ret (-1, self) (st.with_curexc (some
          (PyErr.mk .PyExc_TypeError (some (.PyString "transaction already initialized"))
            none)))
      else
        match args[0]? with
        | none => .undefined st
        | some a0 =>
          match tenv.NRTransaction_init self [a0] kwds with
          | (self1, .error e) => .ret (-1, self1) (st.with_curexc (some e))
          | (self1, .ok _) =>
            .ret (0, NRBackgroundTask_init_record tenv self1 name (slot slots 2)) st := by
  have c0 : ¬ (is_NRApplication app = false) := by simp [happ]
  have c1 : ¬ (PyString_Check name = false ∧ PyUnicode_Check name = false) := by
    rintro ⟨h, h2⟩
    rcases hname with hn | hn
    · rw [h] at hn; cases hn
    · rw [h2] at hn; cases hn
  have c2 := text_or_none_check _ hscope
  simp only [NRBackgroundTask_init, PyArg_ParseTupleAndKeywords, hparse, run_bind, run_pure,
    h0, h1, if_neg c0, if_neg c1, if_neg c2]
  cases hi : self.application.isSome
  · rcases ha : args[0]? with _ | a0
    · simp only [Bool.false_eq_true, if_false, run_bind, Py_REF_none]
    · rcases hb : tenv.NRTransaction_init self [a0] kwds with ⟨self1, r⟩
      rcases r with u | e
      · simp only [Bool.false_eq_true, if_false, run_bind, Py_REF_some, hb, run_pure]
      · simp only [Bool.false_eq_true, if_false, run_bind, Py_REF_some, hb, run_pure,
          set_curexc_run]
  · simp only [if_true, run_bind, run_pure, PyErr_SetString_run]

/-- C12 fails as stated: when the base initializer creates no transaction record
(`self->transaction` stays NULL), `NRBackgroundTask_init` still succeeds and the object has
no record that could carry the path, the path type or the background flag. -/
theorem C12_counterexample_no_record :
    NRBackgroundTask_init sample_transaction_env_no_record ⟨none, none⟩
        [.NRApplication 0, .PyString "job.run"] none sample_state =
      .ret (0, ⟨some (.NRApplication 0), none⟩) sample_state :=
  rfl

/-- C12, amended. For every successful `NRBackgroundTask_init` after which the object has a
transaction record, that record has `path_type = NR_PATH_TYPE_CUSTOM`, `backgroundjob = 1`,
`realpath = NULL` and `path` equal to the path constructed from the bound `(name, scope)`,
whatever the name and the scope are. -/
theorem C12_record_is_marked_background_task (tenv : TransactionEnv)
    (self self2 : NRTransactionObject) (args : List PyObject) (kwds : Option PyDict)
    (st st1 : Interp) (t : nr_transaction_t)
    (hret : NRBackgroundTask_init tenv self args kwds st = .ret (0, self2) st1)
    (hrec : self2.transaction = some t) :
    ∃ slots name,
      parse_args 2 ["application", "name", "scope"] args kwds = some slots ∧
      slots.getD 1 none = some name ∧
      t.path_type = tenv.NR_PATH_TYPE_CUSTOM ∧
      t.backgroundjob = 1 ∧
      t.realpath = none ∧
      t.path = some (tenv.NRUtilities_ConstructPath name (slot slots 2)) := by
  rcases hp : parse_args 2 ["application", "name", "scope"] args kwds with _ | slots
  · simp [NRBackgroundTask_init, PyArg_ParseTupleAndKeywords, hp, set_curexc_run] at hret
  · rcases h0 : slots.getD 0 none with _ | app
    · simp only [NRBackgroundTask_init, PyArg_ParseTupleAndKeywords, hp, run_bind, run_pure,
        h0, undefined_behaviour] at hret
      cases hret
    · rcases h1 : slots.getD 1 none with _ | name
      · simp only [NRBackgroundTask_init, PyArg_ParseTupleAndKeywords, hp, run_bind,
          run_pure, h0, h1, undefined_behaviour] at hret
        cases hret
      · refine ⟨slots, name, rfl, h1, ?_⟩
        by_cases c0 : is_NRApplication app = false
        · simp only [NRBackgroundTask_init, PyArg_ParseTupleAndKeywords, hp, run_bind,
            run_pure, h0, h1, if_pos c0, set_curexc_run] at hret
          simp at hret
        · by_cases c1 : PyString_Check name = false ∧ PyUnicode_Check name = false
          · simp only [NRBackgroundTask_init, PyArg_ParseTupleAndKeywords, hp, run_bind,
              run_pure, h0, h1, if_neg c0, if_pos c1, PyErr_SetString_run] at hret
            simp at hret
          · by_cases c2 : PyString_Check (slot slots 2) = false ∧
                PyUnicode_Check (slot slots 2) = false ∧ slot slots 2 ≠ .Py_None
            · simp only [NRBackgroundTask_init, PyArg_ParseTupleAndKeywords, hp, h0, h1,
                run_bind, run_pure, if_neg c0, if_neg c1, if_pos c2,
                PyErr_SetString_run] at hret
              simp at hret
            · have hrun := background_task_init_run tenv self args kwds st slots app name hp
                h0 h1 (by simpa using c0)
                (by
                  cases hs : PyString_Check name
                  · cases hu : PyUnicode_Check name
                    · exact absurd ⟨hs, hu⟩ c1
                    · exact Or.inr rfl
                  · exact Or.inl rfl)
                (text_or_none_of_check _ c2)
              rw [hrun] at hret
              cases hi : self.application.isSome
              · simp only [hi, Bool.false_eq_true, if_false] at hret
                rcases ha : args[0]? with _ | a0
                · simp [ha] at hret
                · simp only [ha] at hret
                  rcases hb : tenv.NRTransaction_init self [a0] kwds with ⟨self1, r⟩
                  rcases r with u | e
                  · simp only [hb, Run.ret.injEq, Prod.mk.injEq, true_and] at hret
                    rcases hret with ⟨hself, _⟩
                    subst hself
                    unfold NRBackgroundTask_init_record at hrec
                    rcases ht : self1.transaction with _ | t0
                    · simp [ht] at hrec
                    · simp only [ht, Option.some.injEq] at hrec
                      subst hrec
                      exact ⟨rfl, rfl, rfl, rfl⟩
                  · simp [hb] at hret
              · simp [hi] at hret

/-- Witness for C12: the first initialisation of a blank object with
`(application, "job.run")` under the sample base initializer. -/
theorem C12_record_is_marked_background_task_witness :
    ∃ slots name,
      parse_args 2 ["application", "name", "scope"] [.NRApplication 0, .PyString "job.run"]
        none = some slots ∧
      slots.getD 1 none = some name ∧
      (⟨2, some "job.run", none, 1⟩ : nr_transaction_t).path_type =
        sample_transaction_env.NR_PATH_TYPE_CUSTOM ∧
      (⟨2, some "job.run", none, 1⟩ : nr_transaction_t).backgroundjob = 1 ∧
      (⟨2, some "job.run", none, 1⟩ : nr_transaction_t).realpath = none ∧
      (⟨2, some "job.run", none, 1⟩ : nr_transaction_t).path =
        some (sample_transaction_env.NRUtilities_ConstructPath name (slot slots 2)) :=
  C12_record_is_marked_background_task sample_transaction_env ⟨none, none⟩
    ⟨some (.NRApplication 0), some ⟨2, some "job.run", none, 1⟩⟩
    [.NRApplication 0, .PyString "job.run"] none sample_state sample_state
    ⟨2, some "job.run", none, 1⟩ rfl rfl

/-- C13. `NRBackgroundTask_init` on an object that is already initialised (its application
is set), called with arguments that bind and have the accepted types, returns -1 with
`TypeError("transaction already initialized")` pending and hands the object back as it
was: application and transaction record are unchanged, and the base initializer is not
reached. -/
theorem C13_second_init_is_rejected (tenv : TransactionEnv) (self : NRTransactionObject)
    (args : List PyObject) (kwds : Option PyDict) (st : Interp)
    (slots : List (Option PyObject)) (app name a : PyObject)
    (hinit : self.application = some a)
    (hparse : parse_args 2 ["application", "name", "scope"] args kwds = some slots)
    (h0 : slots.getD 0 none = some app) (h1 : slots.getD 1 none = some name)
    (happ : is_NRApplication app = true)
    (hname : PyString_Check name = true ∨ PyUnicode_Check name = true)
    (hscope : text_or_none (slot slots 2)) :
    NRBackgroundTask_init tenv self args kwds st =
      .ret (-1, self) (st.with_curexc (some
        (PyErr.mk .PyExc_TypeError (some (.PyString "transaction already initialized"))
          none))) := by
  rw [background_task_init_run tenv self args kwds st slots app name hparse h0 h1 happ hname
    hscope]
  simp [hinit]

/-- Witness for C13: a second initialisation of an object that holds an application and a
named record. -/
theorem C13_second_init_is_rejected_witness :
    NRBackgroundTask_init sample_transaction_env
        ⟨some (.NRApplication 0), some ⟨2, some "job.run", none, 1⟩⟩
        [.NRApplication 0, .PyString "other"] none sample_state =
      .ret (-1, ⟨some (.NRApplication 0), some ⟨2, some "job.run", none, 1⟩⟩)
        (sample_state.with_curexc (some
          (PyErr.mk .PyExc_TypeError (some (.PyString "transaction already initialized"))
            none))) :=
  C13_second_init_is_rejected sample_transaction_env
    ⟨some (.NRApplication 0), some ⟨2, some "job.run", none, 1⟩⟩
    [.NRApplication 0, .PyString "other"] none sample_state
    [some (.NRApplication 0), some (.PyString "other"), none]
    (.NRApplication 0) (.PyString "other") (.NRApplication 0) rfl (by decide) rfl rfl rfl
    (Or.inl rfl) (Or.inr (Or.inr rfl))



/-! ## The name handed to the transaction -/

theorem trace_grows_refl (st : Interp) : trace_grows st st := ⟨[], by simp⟩

theorem trace_grows_trans (a b c : Interp) (h1 : trace_grows a b) (h2 : trace_grows b c) :
    trace_grows a c := by
  rcases h1 with ⟨e1, h1⟩
  rcases h2 with ⟨e2, h2⟩
  exact ⟨e1 ++ e2, by rw [h2, h1, List.append_assoc]⟩

theorem grows_bind {α β : Type} (m : C α) (f : α → C β)
    (hm : Respects trace_grows m) (hf : ∀ a, Respects trace_grows (f a)) :
    Respects trace_grows (m >>= f) :=
  respects_bind trace_grows trace_grows_trans m f hm hf

theorem grows_pure {α : Type} (a : α) : Respects trace_grows (pure a : C α) :=
  fun st => trace_grows_refl st

theorem grows_undefined {α : Type} : Respects trace_grows (undefined_behaviour : C α) :=
  fun st => trace_grows_refl st

theorem grows_emit (e : Event) : Respects trace_grows (emit e) := fun _ => ⟨[e], rfl⟩

theorem grows_set_curexc (e : Option PyErr) : Respects trace_grows (set_curexc e) :=
  fun st => trace_grows_refl st

theorem grows_Py_REF (o : Option PyObject) : Respects trace_grows (Py_REF o) := by
  cases o
  · exact grows_undefined
  · exact grows_pure _

theorem grows_from_result {α : Type} (r : PyResult α) :
    Respects trace_grows (from_result r) := by
  cases r
  · exact grows_pure _
  · exact fun st => trace_grows_refl st

theorem grows_PyErr_Fetch : Respects trace_grows PyErr_Fetch :=
  fun st => trace_grows_refl st

theorem grows_PyErr_Restore (t v tb : PyObject) :
    Respects trace_grows (PyErr_Restore t v tb) :=
  fun st => trace_grows_refl st

theorem grows_unraisable_unless (r o : Option PyObject) :
    Respects trace_grows (unraisable_unless r o) := by
  cases r
  · exact fun st => ⟨[.WriteUnraisable o st.curexc], rfl⟩
  · exact grows_pure _

theorem grows_PyObject_Call (env : Env) (f : Option PyObject) (args : List PyObject)
    (kwds : Option PyDict) : Respects trace_grows (PyObject_Call env f args kwds) := by
  unfold PyObject_Call
  exact grows_bind _ _ (grows_Py_REF f) fun _ =>
    grows_bind _ _ (grows_emit _) fun _ => grows_from_result _

theorem grows_PyObject_GetAttrString (env : Env) (o : Option PyObject) (attr : String) :
    Respects trace_grows (PyObject_GetAttrString env o attr) := by
  unfold PyObject_GetAttrString
  exact grows_bind _ _ (grows_Py_REF o) fun _ =>
    grows_bind _ _ (grows_emit _) fun _ => grows_from_result _

/-- When `m` always returns after logging exactly the event `c` and what follows only adds
to the log, the log of `m >>= f` continues with `c`. -/
theorem bind_first_event {α β : Type} (m : C α) (f : α → C β) (c : Event)
    (hm : ∀ st, ∃ a st1, m st = .ret a st1 ∧ st1.trace = st.trace ++ [c])
    (hf : ∀ a, Respects trace_grows (f a)) (st : Interp) :
    ∃ rest, ((m >>= f) st).state.trace = st.trace ++ c :: rest := by
  rcases hm st with ⟨a, st1, hrun, htr⟩
  rcases hf a st1 with ⟨evs, hevs⟩
  refine ⟨evs, ?_⟩
  rw [run_bind, hrun]
  simp only
  rw [hevs, htr, List.append_assoc]
  rfl

/-- The owned-transaction part starts by calling the BackgroundTask constructor with the
application, the name it was given and the scope, whatever happens afterwards. -/
theorem owned_first_call (env : Env) (d : Option PyObject) (f app nm sc name : PyObject)
    (args : List PyObject) (kwds : Option PyDict) (st : Interp) :
    ∃ rest,
      (NRBackgroundTaskWrapper_call_owned env ⟨d, some f, some app, some nm, some sc⟩ name
        args kwds st).state.trace =
      st.trace ++ .Call .NRBackgroundTask_Type [app, name, sc] none :: rest := by
  unfold NRBackgroundTaskWrapper_call_owned
  refine bind_first_event _ _ _ ?_ (fun background_task => ?_) st
  · intro st0
    simp only [PyObject_CallFunctionObjArgs, List.takeWhile, Option.isSome, List.filterMap, id,
      PyObject_Call_run]
    rcases env.PyObject_Call .NRBackgroundTask_Type [app, name, sc] none with v | e
    · exact ⟨_, _, rfl, rfl⟩
    · exact ⟨_, _, rfl, rfl⟩
  · refine grows_bind _ _ (grows_PyObject_GetAttrString _ _ _) fun m1 => ?_
    refine grows_bind _ _ (grows_PyObject_Call _ _ _ _) fun r1 => ?_
    refine grows_bind _ _ (grows_unraisable_unless _ _) fun _ => ?_
    refine grows_bind _ _ (grows_PyObject_Call _ _ _ _) fun wrapped_result => ?_
    refine grows_bind _ _ (grows_PyObject_GetAttrString _ _ _) fun m2 => ?_
    cases wrapped_result with
    | some v =>
      refine grows_bind _ _ (grows_PyObject_Call _ _ _ _) fun r2 => ?_
      refine grows_bind _ _ (grows_unraisable_unless _ _) fun _ => ?_
      exact grows_pure _
    | none =>
      refine grows_bind _ _ grows_PyErr_Fetch fun fetched => ?_
      refine grows_bind _ _ (grows_Py_REF _) fun type => ?_
      refine grows_bind _ _ (grows_pure _) fun normalized => ?_
      refine grows_bind _ _ (grows_PyObject_Call _ _ _ _) fun r2 => ?_
      refine grows_bind _ _ (grows_unraisable_unless _ _) fun _ => ?_
      refine grows_bind _ _ (grows_PyErr_Restore _ _ _) fun _ => ?_
      exact grows_pure _

/-- After any events that are not calls, the first call of the owned-transaction part is
the BackgroundTask constructor with the name it was given. -/
theorem owned_calls_head (env : Env) (d : Option PyObject) (f app nm sc name : PyObject)
    (args : List PyObject) (kwds : Option PyDict) (st st0 : Interp) (pre : List Event)
    (htr : st0.trace = st.trace ++ pre) (hpre : pre.filter Event.isCall = []) :
    (new_calls st (NRBackgroundTaskWrapper_call_owned env
        ⟨d, some f, some app, some nm, some sc⟩ name args kwds st0).state).head? =
      some (.Call .NRBackgroundTask_Type [app, name, sc] none) := by
  rcases owned_first_call env d f app nm sc name args kwds st0 with ⟨rest, hrest⟩
  simp [new_calls, hrest, htr, hpre, Event.isCall, List.filter_append]

/-- C14. For every wrapper configured with an explicit name `nm` (not `None`), the first
call `NRBackgroundTaskWrapper_call` makes hands exactly `nm` to the transaction, for all
call arguments, wrapped objects and environments: inside a web transaction whose
`name_transaction` is found it is `name_transaction(nm, scope)`, in every other case it is
the BackgroundTask constructor called with `(application, nm, scope)`. This holds however
the run continues. -/
theorem C14_explicit_name_is_passed_unchanged (env : Env) (self : Nat)
    (args : List PyObject) (kwds : Option PyDict) (st : Interp) (d : Option PyObject)
    (f app nm sc : PyObject)
    (hw : st.wrappers[self]? = some ⟨d, some f, some app, some nm, some sc⟩)
    (hn : nm ≠ .Py_None) :
    (new_calls st (NRBackgroundTaskWrapper_call env self args kwds st).state).head? =
      some (naming_call env app sc nm) := by
  by_cases hweb : ∃ tid, env.NRTransaction_CurrentTransaction = some (.NRWebTransaction tid)
  · rcases hweb with ⟨tid, hweb⟩
    rcases hm : env.PyObject_GetAttrString (.NRWebTransaction tid) "name_transaction"
      with m | em
    · have hcall : naming_call env app sc nm = .Call m [nm, sc] none := by
        simp only [naming_call, hweb, hm]
      rw [hcall]
      rcases h0 : env.PyObject_SetAttrString (.NRWebTransaction tid) "background_task"
        .Py_True with v0 | e0 <;>
      rcases h1 : env.PyObject_Call m [nm, sc] none with v1 | e1 <;>
      rcases h2 : env.PyObject_Call f args kwds with v2 | e2 <;>
      simp only [NRBackgroundTaskWrapper_call, load_wrapper_run _ _ _ hw, run_bind, hn,
        if_false, Option.some.injEq, NRTransaction_CurrentTransaction_run, hweb,
        PyObject_SetAttrString_run, h0, PyObject_CallFunctionObjArgs, List.takeWhile,
        Option.isSome, List.filterMap, id, PyObject_Call_run, PyObject_GetAttrString_run, hm,
        h1, h2, Py_REF_some, unraisable_unless_some, unraisable_unless_none, run_pure] <;>
      simp [Event.isCall, new_calls, Run.state]
    · have hcall : naming_call env app sc nm =
          .Call .NRBackgroundTask_Type [app, nm, sc] none := by
        simp only [naming_call, hweb, hm]
      rw [hcall]
      rcases h0 : env.PyObject_SetAttrString (.NRWebTransaction tid) "background_task"
        .Py_True with v0 | e0 <;>
      simp only [NRBackgroundTaskWrapper_call, load_wrapper_run _ _ _ hw, run_bind, hn,
        if_false, Option.some.injEq, NRTransaction_CurrentTransaction_run, hweb,
        PyObject_SetAttrString_run, h0, PyObject_GetAttrString_run, hm, Py_REF_some,
        PyErr_Clear_run] <;>
      refine owned_calls_head env d f app nm sc nm args kwds st _
        [.CurrentTransaction, .SetAttr (.NRWebTransaction tid) "background_task" .Py_True,
          .GetAttr (.NRWebTransaction tid) "name_transaction"] ?_ rfl <;>
      simp
  · have hct : ∀ tid, env.NRTransaction_CurrentTransaction ≠ some (.NRWebTransaction tid) :=
      fun tid h => hweb ⟨tid, h⟩
    have hcall : naming_call env app sc nm =
        .Call .NRBackgroundTask_Type [app, nm, sc] none := by
      unfold naming_call
      split
      · next tid h => exact absurd h (hct tid)
      · rfl
    rw [hcall]
    simp only [NRBackgroundTaskWrapper_call, load_wrapper_run _ _ _ hw, run_bind, hn,
      if_false, Option.some.injEq, NRTransaction_CurrentTransaction_run,
      dispatch_not_web env hct, Py_REF_some]
    exact owned_calls_head env d f app nm sc nm args kwds st _ [.CurrentTransaction]
      rfl rfl

/-- Witness for C14: wrapper 0 of the sample state is configured with the name
`job.run`. -/
theorem C14_explicit_name_is_passed_unchanged_witness :
    (new_calls sample_state
        (NRBackgroundTaskWrapper_call sample_env 0 [.PyInt 42] none sample_state).state).head? =
      some (naming_call sample_env (.NRApplication 0) .Py_None (.PyString "job.run")) :=
  C14_explicit_name_is_passed_unchanged sample_env 0 [.PyInt 42] none sample_state none
    (.Object 1) (.NRApplication 0) (.PyString "job.run") .Py_None rfl (by decide)

/-! ## Failure of the begin call -/

/-- C15. On the owned-transaction path (not inside a web transaction, BackgroundTask `bt`
constructed, its `__enter__`/`__exit__` found), if the `__enter__()` call raises `e1`, then
`NRBackgroundTaskWrapper_call` still returns; `e1` is reported through
`PyErr_WriteUnraisable` and not raised; the calls made are exactly the constructor, the
failed `__enter__()`, one call of the wrapped object with the original arguments, and one
`__exit__(...)` after it; the returned value is that of the wrapped object (NULL if it
raised), and the pending error on return is none if the wrapped object returned, the
exception triple of its own error if it raised. -/
theorem C15_enter_failure_is_not_raised (env : Env) (self : Nat) (args : List PyObject)
    (kwds : Option PyDict) (st : Interp) (d : Option PyObject)
    (f app nm sc bt m_enter m_exit : PyObject) (e1 : PyErr)
    (hw : st.wrappers[self]? = some ⟨d, some f, some app, some nm, some sc⟩)
    (hct : ∀ tid, env.NRTransaction_CurrentTransaction ≠ some (.NRWebTransaction tid))
    (hbt : env.PyObject_Call .NRBackgroundTask_Type
      [app, resolved_name env self f nm args, sc] none = .ok bt)
    (henter : env.PyObject_GetAttrString bt "__enter__" = .ok m_enter)
    (hexit : env.PyObject_GetAttrString bt "__exit__" = .ok m_exit)
    (hfail : env.PyObject_Call m_enter [] none = .error e1) :
    ∃ st1,
      NRBackgroundTaskWrapper_call env self args kwds st =
        .ret (match env.PyObject_Call f args kwds with
              | .ok v => some v
              | .error _ => none) st1 ∧
      new_calls st st1 =
        [.Call .NRBackgroundTask_Type [app, resolved_name env self f nm args, sc] none,
         .Call m_enter [] none,
         .Call f args kwds,
         .Call m_exit (exit_args env (env.PyObject_Call f args kwds)) none] ∧
      .WriteUnraisable (some m_enter) (some e1) ∈ st1.trace ∧
      st1.curexc =
        (match env.PyObject_Call f args kwds with
         | .ok _ => none
         | .error e => some (restored (exc_info env e))) := by
  have hcur := dispatch_not_web env hct
  by_cases hn : nm = .Py_None <;>
  rcases h2 : env.PyObject_Call f args kwds with v2 | e2 <;>
  rcases h3 : env.PyObject_Call m_exit (exit_args env (env.PyObject_Call f args kwds)) none
    with v3 | e3 <;>
  simp only [h2, exit_args, exc_info] at h3 <;>
  simp only [resolved_name, hn, if_true, if_false] at hbt <;>
  simp only [NRBackgroundTaskWrapper_call, load_wrapper_run _ _ _ hw, run_bind, if_true, hn,
    if_false, Option.some.injEq, NRUtilities_CallableName_run,
    NRTransaction_CurrentTransaction_run, hcur, NRBackgroundTaskWrapper_call_owned,
    PyObject_CallFunctionObjArgs, List.takeWhile, Option.isSome, List.filterMap, id,
    PyObject_Call_run, hbt, PyObject_GetAttrString_run, henter, hexit, hfail, h2, h3,
    unraisable_unless_some, unraisable_unless_none, run_pure, resolved_name, PyErr_Fetch_run,
    Py_REF_some, PyErr_NormalizeException_run, PyErr_Restore_run, exit_args, exc_info,
    log_curexc, with_curexc_curexc, Option.map_some', Option.some_bind] <;>
  refine ⟨_, rfl, ?_, ?_, ?_⟩ <;>
  simp [Event.isCall, new_calls, restored]

/-- Witness for C15: wrapper 0 of the sample state, in the environment whose `__enter__`
(`Object 10`) raises `sample_error`. -/
theorem C15_enter_failure_is_not_raised_witness :
    ∃ st1,
      NRBackgroundTaskWrapper_call sample_env_enter_fails 0 [.PyInt 42] none sample_state =
        .ret (match sample_env_enter_fails.PyObject_Call (.Object 1) [.PyInt 42] none with
              | .ok v => some v
              | .error _ => none) st1 ∧
      new_calls sample_state st1 =
        [.Call .NRBackgroundTask_Type
           [.NRApplication 0,
            resolved_name sample_env_enter_fails 0 (.Object 1) (.PyString "job.run")
              [.PyInt 42], .Py_None] none,
         .Call (.Object 10) [] none,
         .Call (.Object 1) [.PyInt 42] none,
         .Call (.Object 11)
           (exit_args sample_env_enter_fails
             (sample_env_enter_fails.PyObject_Call (.Object 1) [.PyInt 42] none)) none] ∧
      .WriteUnraisable (some (.Object 10)) (some sample_error) ∈ st1.trace ∧
      st1.curexc =
        (match sample_env_enter_fails.PyObject_Call (.Object 1) [.PyInt 42] none with
         | .ok _ => none
         | .error e => some (restored (exc_info sample_env_enter_fails e))) :=
  C15_enter_failure_is_not_raised sample_env_enter_fails 0 [.PyInt 42] none sample_state none
    (.Object 1) (.NRApplication 0) (.PyString "job.run") .Py_None (.NRBackgroundTask 7)
    (.Object 10) (.Object 11) sample_error rfl (fun _ h => nomatch h) rfl rfl rfl rfl

end NewRelic
